import Mathlib

/-!
Verification development for the Motor-Monitor firmware.

Each C function relevant to the checked specification claims is embedded as
an executable Lean definition over explicit machine-integer arithmetic
(Nat / Int with explicit reductions modulo 2^w where the C code can wrap).
Theorems at the end of the file settle the individual claims.
-/

set_option maxRecDepth 4000

/-! ## Machine integer helpers -/

/-- Reinterpretation of an integer as a signed 16-bit value: the unique
representative of its class modulo 2^16 inside the interval
from -32768 to 32767.  Used wherever the C code stores into an
int16_t or casts to int16_t. -/
def wrap16 (z : Int) : Int :=
  let r := z % 65536
  if r < 32768 then r else r - 65536

/-- Reinterpretation of an integer as a signed 32-bit value, the analogue of
wrap16 for int32_t stores and casts. -/
def wrap32 (z : Int) : Int :=
  let r := z % 4294967296
  if r < 2147483648 then r else r - 4294967296

/-- Signed representative of z modulo M lying in the half-open interval
(-M/2, M/2]: the reduction demanded by claim C2 for the folded hardware
delta. -/
def signedRepMod (M : Nat) (z : Int) : Int :=
  let r := z % (M : Int)
  if 2 * r ≤ (M : Int) then r else r - (M : Int)

/-! ## Protection loop (src/Software/Src/event.c, src/Inc/bsp.h)

The 200-cell DMA sample buffer is modelled as a function from Fin 200, the
two globals current_adcAverageReady and the motor-enable GPIO level as a
small state record.  gpio_write(MOTOR_ENABLE_PORT, MOTOR_ENABLE_PIN, 0) is
the transition that sets motorEnable to false. -/

/-- Threshold constant CURRENT_CRITICAL_THRESHOLD from src/Inc/bsp.h line 79. -/
def CURRENT_CRITICAL_THRESHOLD : Nat := 3400

/-- The pieces of global state read and written by current_handler:
the batch-ready flag set by the DMA ISR, the last computed average, and the
electrical level of the motor-enable pin (true = logical 1). -/
structure ProtectionState where
  current_adcAverageReady : Bool
  current_adcAverage : Nat
  motorEnable : Bool
  deriving DecidableEq, Repr

/-- Sum of the 200 buffer cells, as computed by the for loop in
current_handler (sum is a uint32_t; 200 uint16_t samples cannot overflow it). -/
def currentBufferSum (buf : Fin 200 → Nat) : Nat := ∑ i, buf i

/-- Embedding of current_handler (src/Software/Src/event.c lines 246-262).
The expired argument models the result of systick_timer_expired on the 1 ms
current_timer; buf models the DMA-owned current_adcBuffer. -/
def current_handler (expired : Bool) (buf : Fin 200 → Nat)
    (s : ProtectionState) : ProtectionState :=
  if expired then
    if s.current_adcAverageReady then
      let avg := currentBufferSum buf / 200
      { current_adcAverageReady := false
        current_adcAverage := avg
        motorEnable := if CURRENT_CRITICAL_THRESHOLD < avg then false else s.motorEnable }
    else s
  else s

/-! ## Button driver (src/Drivers/Register_base/Src/button.c) -/

/-- Debounce pattern constant from button.h line 65. -/
def BUTTON_DEBOUNCE_PATTERN : Nat := 0x0F

/-- The per-button state fields of Button_HandleTypeDef that
button_debounce_shift_register and button_pressed read and write.
debounce_shift_reg is a uint8_t, kept below 256. -/
structure Button_HandleTypeDef where
  current_state : Bool
  last_state : Bool
  press_event : Bool
  debounce_shift_reg : Nat
  deriving DecidableEq, Repr

/-- Field values established by button_init (button.c lines 40-45). -/
def button_init_state : Button_HandleTypeDef :=
  { current_state := false, last_state := false, press_event := false
    debounce_shift_reg := 0 }

/-- Embedding of button_debounce_shift_register (button.c lines 125-147).
raw true models a raw_reading of 1. -/
def button_debounce_shift_register (h : Button_HandleTypeDef) (raw : Bool) :
    Button_HandleTypeDef :=
  let reg := (h.debounce_shift_reg * 2 + (if raw then 1 else 0)) % 256
  if reg &&& BUTTON_DEBOUNCE_PATTERN = BUTTON_DEBOUNCE_PATTERN then
    if h.current_state = false then
      { current_state := true, last_state := h.current_state
        press_event := true, debounce_shift_reg := reg }
    else { h with debounce_shift_reg := reg }
  else if reg &&& BUTTON_DEBOUNCE_PATTERN = 0 then
    if h.current_state = true then
      { current_state := false, last_state := h.current_state
        press_event := h.press_event, debounce_shift_reg := reg }
    else { h with debounce_shift_reg := reg }
  else { h with debounce_shift_reg := reg }

/-- Embedding of button_is_pressed (button.c lines 173-181) on a valid
initialized handle. -/
def button_is_pressed (h : Button_HandleTypeDef) : Bool := h.current_state

/-- Embedding of button_pressed (button.c lines 189-202): returns the latch
and the handle with the latch cleared. -/
def button_pressed (h : Button_HandleTypeDef) : Bool × Button_HandleTypeDef :=
  if h.press_event then (true, { h with press_event := false }) else (false, h)

/-- Repeated scanning: one call to button_debounce_shift_register per raw
sample, in order, as performed by the 5 ms scan loop. -/
def button_scan (h : Button_HandleTypeDef) (raws : List Bool) : Button_HandleTypeDef :=
  raws.foldl button_debounce_shift_register h

/-- All intermediate handles along a scan, the state after each prefix of the
raw samples (the head is the starting handle). -/
def button_scan_trace (h : Button_HandleTypeDef) (raws : List Bool) :
    List Button_HandleTypeDef :=
  raws.scanl button_debounce_shift_register h

/-- Number of scan steps at which the press latch transitions from clear to
set along a trace. -/
def press_latch_sets (states : List Button_HandleTypeDef) : Nat :=
  (states.zip states.tail).countP
    (fun p => p.1.press_event = false ∧ p.2.press_event = true)

/-- The raw sample sequence of the button-debounce scenario
(0,1,0,1,1,1,1,0,0,0,0). -/
def debounce_scenario : List Bool :=
  [false, true, false, true, true, true, true, false, false, false, false]

/-! ## DMA disable-wait spin (src/Drivers/Register_base/Src/dma.c lines 44-48,
src/Src/bsp.c lines 110-116)

The spin  while (DMAStream->CR & DMA_SxCR_EN);  is modelled against a trace
of successive reads of the EN bit: en i is the value of the bit at the i-th
read.  dmaDisableWaitFuel runs the loop for at most fuel iterations and
returns the index of the first read with the bit clear, if reached. -/

/-- Fuel-indexed semantics of the disable-wait while loop, starting at read
index i: some k when the read at index k has EN clear and every earlier read
from i on has EN set within the given fuel, none when the fuel is exhausted
with EN still reading set. -/
def dmaDisableWaitFuel (en : Nat → Bool) : Nat → Nat → Option Nat
  | 0, _ => none
  | fuel + 1, i => if en i then dmaDisableWaitFuel en fuel (i + 1) else some i

/-- Termination of the disable-wait spin on a given EN-bit trace: some finite
fuel suffices for the loop to exit. -/
def dmaDisableSpinExits (en : Nat → Bool) : Prop :=
  ∃ fuel, (dmaDisableWaitFuel en fuel 0).isSome = true

/-- Formalization of claim C8 as stated: there is a fixed iteration bound
within which the spin always exits (so that initialization always
terminates; dma_init and adc_dma_init return no status at all, hence
termination with a PeripheralBusy report is only possible if the spin
itself is bounded). -/
def dmaSpinBoundedClaim : Prop :=
  ∃ B : Nat, ∀ en : Nat → Bool, (dmaDisableWaitFuel en B 0).isSome = true

/-! ## Encoder driver (src/Software/Drivers/Register_base/Src/encoder.c)

The handle fields used by encoder_update and encoder_calculate_speed_rpm,
together with the ARR auto-reload register of the timer the handle points
at.  The hardware counter value CNT is passed to the operations as an input
(encoder_get_count reads it from the timer).  TotalCount, LastCount and
Speed are int32_t (kept as the wrap32 representative), LastHwCount and
CountsPerRevolution are uint16_t, LastTimeMs is uint32_t. -/

structure Encoder_HandleTypeDef where
  CountsPerRevolution : Nat
  TotalCount : Int
  LastCount : Int
  LastHwCount : Nat
  Speed : Int
  LastTimeMs : Nat
  ARR : Nat
  deriving DecidableEq, Repr

/-- The ARR value programmed by encoder_init (encoder.c line 69) from the
configuration in motor_init (event.c line 79): ARR = MaxCount - 1 with
MaxCount = 0xFFFF. -/
def deployedARR : Nat := 0xFFFE

/-- Embedding of encoder_update (encoder.c lines 180-201) for a hardware
counter reading cnt (a uint16_t).
count_diff is an int16_t: the initial subtraction of two uint16_t values is
cast to int16_t (reduction modulo 2^16 to the signed representative), and
the subsequent compound assignments wrap the same way.
max_count is a uint16_t holding ARR + 1 truncated to 16 bits, and
half_max = (int16_t)(max_count / 2). -/
def encoder_update (h : Encoder_HandleTypeDef) (cnt : Nat) : Encoder_HandleTypeDef :=
  let current_count := cnt % 65536
  let count_diff0 := wrap16 ((current_count : Int) - (h.LastHwCount : Int))
  let max_count := (h.ARR + 1) % 65536
  let half_max := wrap16 ((max_count / 2 : Nat) : Int)
  let count_diff :=
    if half_max < count_diff0 then wrap16 (count_diff0 - wrap16 (max_count : Int))
    else if count_diff0 < -half_max then wrap16 (count_diff0 + wrap16 (max_count : Int))
    else count_diff0
  { h with TotalCount := wrap32 (h.TotalCount + count_diff)
           LastHwCount := current_count }

/-- Embedding of encoder_calculate_speed_rpm (encoder.c lines 206-239) for a
hardware counter reading cnt and a current time in milliseconds (uint32_t).
Returns the int32_t result together with the updated handle.  The null-handle
guard is not representable; the CountsPerRevolution == 0 guard is.  The
64-bit product and quotient are exact in Int (no int64 overflow is possible
for int32 operands), the division is C division truncating toward zero, and
the store into the int32_t Speed field wraps. -/
def encoder_calculate_speed_rpm (h : Encoder_HandleTypeDef) (cnt : Nat)
    (current_time_ms : Nat) : Int × Encoder_HandleTypeDef :=
  if h.CountsPerRevolution = 0 then (0, h)
  else
    let h1 := encoder_update h cnt
    if h1.LastTimeMs = 0 then
      (0, { h1 with LastTimeMs := current_time_ms % 4294967296
                    LastCount := h1.TotalCount })
    else
      let time_diff_ms := (current_time_ms % 4294967296 + 4294967296 - h1.LastTimeMs) % 4294967296
      if time_diff_ms = 0 then (h1.Speed, h1)
      else
        let count_diff := wrap32 (h1.TotalCount - h1.LastCount)
        let speed := wrap32 (Int.tdiv (count_diff * 60000)
          ((h1.CountsPerRevolution : Int) * (time_diff_ms : Int)))
        (speed, { h1 with Speed := speed
                          LastCount := h1.TotalCount
                          LastTimeMs := current_time_ms % 4294967296 })

/-- The property claim C2 asserts of a single encoder_update call: the
TotalCount movement is the signed representative of the hardware delta
modulo ARR + 1, and LastHwCount becomes the current count. -/
def encoderUpdateClaim (h : Encoder_HandleTypeDef) (cnt : Nat) : Prop :=
  (encoder_update h cnt).TotalCount - h.TotalCount
      = signedRepMod (h.ARR + 1) ((cnt : Int) - (h.LastHwCount : Int))
    ∧ (encoder_update h cnt).LastHwCount = cnt % 65536

/-! ## Menu animator, UNLINEAR branch (OLED_UI.c lines 254-280)

ChangeFloatNum operates on a group of float scalars belonging to one
OLED_ChangeDistance.  The single-precision float arithmetic of the source
is idealized here as exact rational arithmetic: 0.02f becomes 1/50 and the
snap threshold speed/20.0f becomes speed/20.  Claim C5 is a statement about
the mathematical update law written in the specification, and this
embedding evaluates that law exactly. -/

/-- The scalar fields of OLED_ChangeDistance touched by the UNLINEAR branch
of ChangeFloatNum (Integral and Derivative are only used by the PID branch). -/
structure OLED_ChangeDistance where
  CurrentDistance : ℚ
  TargetDistance : ℚ
  Error : ℚ
  LastError : ℚ
  deriving DecidableEq, Repr

/-- One UNLINEAR update step of ChangeFloatNum (OLED_UI.c lines 255-280) at
a given page speed, with the float operations idealized as exact rational
arithmetic. -/
def ChangeFloatNumUnlinear (speed : ℚ) (s : OLED_ChangeDistance) : OLED_ChangeDistance :=
  if s.CurrentDistance = s.TargetDistance then s
  else if speed ≤ 0 then
    { s with Error := 0, LastError := 0, CurrentDistance := s.TargetDistance }
  else
    let lastError := s.Error
    let err := s.TargetDistance - s.CurrentDistance
    let cur := s.CurrentDistance + (1 / 50) * speed * err
    if |cur - s.TargetDistance| < speed / 20 then
      { s with Error := 0, LastError := 0, CurrentDistance := s.TargetDistance }
    else
      { s with LastError := lastError, Error := err, CurrentDistance := cur }

/-- The property claim C5 asserts: from every start state, finitely many
UNLINEAR steps at a positive speed reach the target exactly. -/
def unlinearTerminates (speed : ℚ) (s : OLED_ChangeDistance) : Prop :=
  ∃ n : Nat, ((ChangeFloatNumUnlinear speed)^[n] s).CurrentDistance = s.TargetDistance

/-! ## OLED_UI menu engine
(src/Software/Drivers/OLED_UI_Core/HAL/OLED_UI_Core/OLED_UI/OLED_UI.c)

The embedding covers the state read and written by OLED_UI_InterruptHandler
and its helpers on the paths exercised by claims C4, C6, C9 and C10:
the two key-state globals, the two mutex flags, the window sustain counter,
the current window, and the index/slot fields of the current page.  The
float animator scalars (page start point, cursor, line step and so on) are
outside this state; the MenuItemsMove functions, which only retarget those
scalars, therefore act as the identity here.  The Encoder_Disable and
Encoder_Enable driver calls are declared in OLED_UI_Driver.h but their
bodies are not part of the sources; following the specification they are
modelled as clearing and setting a hardware encoder-enable flag.
The long-press auto-repeat block of OLED_KeyAndEncoderRecord is compiled
only under IF_START_UP_AND_DOWN_LONG_PRESS, whose value is in the missing
OLED_UI.h; it is not modelled, which only removes extra repeat increments
ahead of the same wrap logic. -/

/-- The four key levels stored in OLED_UI_Key and OLED_UI_LastKey
(true models electrical level 1, that is, released). -/
structure OLED_Key where
  Up : Bool
  Down : Bool
  Enter : Bool
  Back : Bool
  deriving DecidableEq, Repr

/-- The mutex flag values used by KeyEnterFlag and FadeOutFlag. -/
inductive MutexFlag where
  | FLAGEND
  | FLAGSTART
  | ENTER_FLAGSTART
  | BACK_FLAGSTART
  deriving DecidableEq, Repr

/-- Menu page type selector. -/
inductive MenuType where
  | MENU_TYPE_LIST
  | MENU_TYPE_TILES
  deriving DecidableEq, Repr

/-- The MenuItem payload fields dispatched on by the interrupt handler:
the text (none models a NULL text, the array sentinel), presence of a
callback pointer, presence of a sub-page pointer, and the boolean pointed
to by List_BoolRadioBox when that pointer is non-null. -/
structure MenuItem where
  General_item_text : Option String
  General_callback : Bool
  General_SubMenuPage : Bool
  List_BoolRadioBox : Option Bool
  deriving DecidableEq, Repr

/-- A MenuItem whose every pointer is NULL, the value behind the sentinel. -/
def sentinelItem : MenuItem :=
  { General_item_text := none, General_callback := false
    General_SubMenuPage := false, List_BoolRadioBox := none }

/-- The MenuPage fields used by the interrupt handler: type, item array
(with its trailing sentinel convention), presence of a parent page, and the
runtime index and slot.  ActiveMenuID and Slot model the int16_t hidden
fields _ActiveMenuID and _Slot. -/
structure MenuPage where
  General_MenuType : MenuType
  General_MenuItems : List MenuItem
  General_ParentMenuPage : Bool
  ActiveMenuID : Int
  Slot : Int
  deriving DecidableEq, Repr

/-- Embedding of GetMenuItemNum (OLED_UI.c lines 237-243): the number of
leading items with non-NULL text. -/
def GetMenuItemNum : List MenuItem → Nat
  | [] => 0
  | it :: rest =>
    if it.General_item_text.isSome then GetMenuItemNum rest + 1 else 0

/-- The MenuWindow fields used by the interrupt handler.  ContinueTime50
models the int16_t value (int16_t)(General_ContinueTime * 50) that the
handler compares the sustain counter against; Prob_Data_Int models the
int16_t pointed to by the window data pointer when it is non-null (the
float-box path of GetWindowDataStyle is not exercised by these claims). -/
structure MenuWindow where
  ContinueTime50 : Int
  Prob_Data_Int : Option Int
  Prob_MinData : Int
  Prob_MaxData : Int
  Prob_DataStep : Int
  deriving DecidableEq, Repr

/-- The OLED_UI global state touched by the interrupt handler paths under
verification.  EncoderEnabled is the hardware encoder counter gate driven
by Encoder_Enable and Encoder_Disable; SustainFlag and SustainCount are
OLED_SustainCounter. -/
structure UIState where
  OLED_UI_Key : OLED_Key
  OLED_UI_LastKey : OLED_Key
  KeyEnterFlag : MutexFlag
  FadeOutFlag : MutexFlag
  EncoderEnabled : Bool
  SustainFlag : Bool
  SustainCount : Int
  CurrentWindow : Option MenuWindow
  CurrentMenuPage : MenuPage
  deriving DecidableEq, Repr

/-- Embedding of GetEnterFlag (OLED_UI.c lines 474-480): true when no
callback is running. -/
def GetEnterFlag (st : UIState) : Bool :=
  match st.KeyEnterFlag with
  | MutexFlag.FLAGEND => true
  | _ => false

/-- Embedding of GetFadeoutFlag (OLED_UI.c lines 487-493): true when no fade
is in progress. -/
def GetFadeoutFlag (st : UIState) : Bool :=
  match st.FadeOutFlag with
  | MutexFlag.FLAGEND => true
  | _ => false

/-- Modelled from the spec: Encoder_Disable (declared in OLED_UI_Driver.h,
body not in the sources) disables the encoder counter at the hardware
level. -/
def Encoder_Disable (st : UIState) : UIState := { st with EncoderEnabled := false }

/-- Modelled from the spec: Encoder_Enable (declared in OLED_UI_Driver.h,
body not in the sources) re-enables the encoder counter at the hardware
level. -/
def Encoder_Enable (st : UIState) : UIState := { st with EncoderEnabled := true }

/-- Embedding of SetEnterFlag (OLED_UI.c lines 1234-1237). -/
def SetEnterFlag (st : UIState) : UIState :=
  Encoder_Disable { st with KeyEnterFlag := MutexFlag.FLAGSTART }

/-- Embedding of SetFadeOutFlag (OLED_UI.c lines 1254-1257). -/
def SetFadeOutFlag (action : MutexFlag) (st : UIState) : UIState :=
  Encoder_Disable { st with FadeOutFlag := action }

/-- Embedding of BackEventMenuItem (OLED_UI.c lines 1295-1301). -/
def BackEventMenuItem (st : UIState) : UIState :=
  if st.CurrentMenuPage.General_ParentMenuPage then
    SetFadeOutFlag MutexFlag.BACK_FLAGSTART st
  else st

/-- The menu item the handler indexes with _ActiveMenuID
(General_MenuItems[_ActiveMenuID]). -/
def currentItem (p : MenuPage) : MenuItem :=
  p.General_MenuItems.getD p.ActiveMenuID.toNat sentinelItem

/-- Embedding of EnterEventMenuItem (OLED_UI.c lines 1277-1289): a callback
without a sub-page raises the callback mutex, a sub-page without a callback
raises the enter fade, any other combination does nothing. -/
def EnterEventMenuItem (st : UIState) : UIState :=
  let it := currentItem st.CurrentMenuPage
  let st1 :=
    if it.General_callback = true ∧ it.General_SubMenuPage = false then
      SetEnterFlag st
    else st
  if it.General_SubMenuPage = true ∧ it.General_callback = false then
    SetFadeOutFlag MutexFlag.ENTER_FLAGSTART st1
  else st1

/-- Embedding of RunCurrentCallBackFunction (OLED_UI.c lines 1318-1330) as
run by the foreground main loop: when the callback mutex is raised the
callback itself executes (its user-defined body is outside this model),
then the mutex is cleared and the encoder re-enabled. -/
def RunCurrentCallBackFunction (st : UIState) : UIState :=
  if st.KeyEnterFlag = MutexFlag.FLAGSTART then
    Encoder_Enable { st with KeyEnterFlag := MutexFlag.FLAGEND }
  else st

/-- The mutex and encoder effects of step 6 of RunFadeOut (OLED_UI.c lines
1453-1528): when a fade is in progress and its masking sequence completes,
ResetFadeOutFlag clears the fade mutex and Encoder_Enable re-enables the
encoder.  The simultaneous switch of CurrentMenuPage to the child or parent
page and the cursor reset concern fields this state model keeps abstract. -/
def RunFadeOutFinishEffects (st : UIState) : UIState :=
  if st.FadeOutFlag ≠ MutexFlag.FLAGEND then
    Encoder_Enable { st with FadeOutFlag := MutexFlag.FLAGEND }
  else st

/-- The pair returned by OLED_KeyAndEncoderRecord.  RawInc and SafeInc model
the int16_t fields named Unsafe and Safe of MenuID_Type: the index movement
before and after the wrap to the valid range. -/
structure MenuID_Type where
  RawInc : Int
  SafeInc : Int
  deriving DecidableEq, Repr

/-- Embedding of OLED_KeyAndEncoderRecord (OLED_UI.c lines 1130-1228)
without the conditionally compiled long-press block: records the key
levels, folds the encoder delta and the up/down release edges into a
candidate index, wraps it into the range 0 to MaxID - 1, and returns both
increments.  All index arithmetic is int16_t.  The enc argument models the
int16_t returned by Encoder_Get. -/
def OLED_KeyAndEncoderRecord (raw : OLED_Key) (enc : Int) (st : UIState) :
    MenuID_Type × UIState :=
  let lastKey := st.OLED_UI_Key
  let key := raw
  let MaxID : Int := (GetMenuItemNum st.CurrentMenuPage.General_MenuItems : Int)
  let active := st.CurrentMenuPage.ActiveMenuID
  let a0 := wrap16 (active + wrap16 enc)
  let a1 := if key.Up ≠ lastKey.Up ∧ key.Up = true then wrap16 (a0 - 1) else a0
  let a2 := if key.Down ≠ lastKey.Down ∧ key.Down = true then wrap16 (a1 + 1) else a1
  let rawInc := wrap16 (a2 - active)
  let a3 := if MaxID - 1 < a2 then 0 else if a2 < 0 then wrap16 (MaxID - 1) else a2
  let safeInc := wrap16 (a3 - active)
  (⟨rawInc, safeInc⟩,
    { st with OLED_UI_Key := key, OLED_UI_LastKey := lastKey })

/-- One iteration of the up loop of the interrupt handler (OLED_UI.c lines
1663-1683): on a LIST page the slot moves up unless pinned (the pinned case
retargets the start-point animator, outside this state) and the index
decrements; on a TILES page the index decrements and the start point is
retargeted. -/
def navUpStep (st : UIState) : UIState :=
  let p := st.CurrentMenuPage
  match p.General_MenuType with
  | MenuType.MENU_TYPE_LIST =>
    let p1 := if 0 < p.Slot then { p with Slot := p.Slot - 1 } else p
    { st with CurrentMenuPage := { p1 with ActiveMenuID := wrap16 (p1.ActiveMenuID - 1) } }
  | MenuType.MENU_TYPE_TILES =>
    { st with CurrentMenuPage := { p with ActiveMenuID := wrap16 (p.ActiveMenuID - 1) } }

/-- One iteration of the down loop of the interrupt handler (OLED_UI.c lines
1686-1706); maxSlot models the value of GetCurrentMenuPageMaxSlotNum, a
function of the float line-step animator and the page geometry. -/
def navDownStep (maxSlot : Int) (st : UIState) : UIState :=
  let p := st.CurrentMenuPage
  match p.General_MenuType with
  | MenuType.MENU_TYPE_LIST =>
    let p1 := if p.Slot < maxSlot - 1 then { p with Slot := p.Slot + 1 } else p
    { st with CurrentMenuPage := { p1 with ActiveMenuID := wrap16 (p1.ActiveMenuID + 1) } }
  | MenuType.MENU_TYPE_TILES =>
    { st with CurrentMenuPage := { p with ActiveMenuID := wrap16 (p.ActiveMenuID + 1) } }

/-- The two dispatch loops of the interrupt handler (OLED_UI.c lines
1662-1707): SafeInc iterations of the matching step function. -/
def applySafeInc (safeInc maxSlot : Int) (st : UIState) : UIState :=
  if safeInc < 0 then navUpStep^[(-safeInc).toNat] st
  else if 0 < safeInc then (navDownStep maxSlot)^[safeInc.toNat] st
  else st

/-- The window-data branch of the interrupt handler (OLED_UI.c lines
1645-1657), int-box path: the bound value moves by RawInc steps and is
clamped into the window bounds. -/
def windowDataAdjust (rawInc : Int) (st : UIState) : UIState :=
  match st.CurrentWindow with
  | none => st
  | some w =>
    match w.Prob_Data_Int with
    | none => st
    | some v =>
      let v1 := wrap16 (v + rawInc * w.Prob_DataStep)
      let v2 := if v1 < w.Prob_MinData then w.Prob_MinData else v1
      let v3 := if w.Prob_MaxData < v2 then w.Prob_MaxData else v2
      { st with CurrentWindow := some { w with Prob_Data_Int := some v3 } }

/-- The radio-bool toggle performed directly by the interrupt handler after
EnterEventMenuItem (OLED_UI.c lines 1725-1727): whenever the active item
carries a non-null List_BoolRadioBox pointer, the pointed-to boolean is
negated. -/
def ToggleActiveRadio (st : UIState) : UIState :=
  let p := st.CurrentMenuPage
  let it := currentItem p
  match it.List_BoolRadioBox with
  | none => st
  | some b =>
    let toggled : MenuItem := { it with List_BoolRadioBox := some (!b) }
    let items := p.General_MenuItems.set p.ActiveMenuID.toNat toggled
    { st with CurrentMenuPage := { p with General_MenuItems := items } }

/-- The window branch of the interrupt handler (OLED_UI.c lines 1639-1659):
while the window-visible flag is set, any nonzero raw movement resets the
sustain counter, the window data (if bound) is adjusted, and the safe index
increment is forced to 0 so the menu index does not move. -/
def sustainGate (inc0 : MenuID_Type) (st : UIState) : MenuID_Type × UIState :=
  if st.SustainFlag = true then
    ({ inc0 with SafeInc := 0 },
      windowDataAdjust inc0.RawInc
        (if inc0.RawInc ≠ 0 then { st with SustainCount := 0 } else st))
  else (inc0, st)

/-- The back-key release-edge branch of the interrupt handler (OLED_UI.c
lines 1712-1720): with no window visible the back event runs; with a window
visible the sustain counter jumps to the continue-time threshold. -/
def backDispatch (st : UIState) : UIState :=
  if st.OLED_UI_Key.Back ≠ st.OLED_UI_LastKey.Back ∧ st.OLED_UI_Key.Back = true then
    if st.SustainFlag = false then BackEventMenuItem st
    else
      { st with SustainCount :=
          match st.CurrentWindow with
          | some w => w.ContinueTime50
          | none => st.SustainCount }
  else st

/-- The enter-key release-edge branch of the interrupt handler (OLED_UI.c
lines 1722-1731): with no window visible the enter event runs followed by
the unconditional radio toggle; with a window visible the sustain counter
resets to 0. -/
def enterDispatch (st : UIState) : UIState :=
  if st.OLED_UI_Key.Enter ≠ st.OLED_UI_LastKey.Enter ∧ st.OLED_UI_Key.Enter = true then
    if st.SustainFlag = false then ToggleActiveRadio (EnterEventMenuItem st)
    else { st with SustainCount := 0 }
  else st

/-- The per-tick window sustain counting block of the interrupt handler
(OLED_UI.c lines 1736-1744), which runs whether or not the mutex guard
passed: while the window is visible the counter increments, and once it
reaches the continue-time threshold the window-visible flag clears. -/
def sustainCountPhase (st : UIState) : UIState :=
  let st6 :=
    if st.SustainFlag = true then { st with SustainCount := wrap16 (st.SustainCount + 1) }
    else st
  match st6.CurrentWindow with
  | some w =>
    if w.ContinueTime50 ≤ st6.SustainCount then
      { st6 with SustainFlag := false, SustainCount := 0 }
    else st6
  | none => st6

/-- Embedding of OLED_UI_InterruptHandler (OLED_UI.c lines 1626-1745),
without GetFPS, as the composition of the phases above.  raw models the
four Key_GetStatus reads of this tick, enc the Encoder_Get delta, maxSlot
the value of GetCurrentMenuPageMaxSlotNum; the guarded block runs only when
both mutex getters report FLAGEND, the sustain counting phase on every
tick. -/
def OLED_UI_InterruptHandler (raw : OLED_Key) (enc : Int) (maxSlot : Int)
    (st : UIState) : UIState :=
  let stG :=
    if GetEnterFlag st && GetFadeoutFlag st then
      let rec1 := OLED_KeyAndEncoderRecord raw enc st
      let gate := sustainGate rec1.1 rec1.2
      enterDispatch (backDispatch (applySafeInc gate.1.SafeInc maxSlot gate.2))
    else st
  sustainCountPhase stG

/-- One interrupt tick with no user input: the keys read the same levels as
before and the encoder reports no movement. -/
def quiescentTick (maxSlot : Int) (st : UIState) : UIState :=
  OLED_UI_InterruptHandler st.OLED_UI_Key 0 maxSlot st

/-! ## Concrete instances used by the scenario and counterexample theorems -/

/-- Encoder handle as initialized by encoder_init from the motor_init
configuration (event.c lines 74-83), after the hardware counter has reached
65534 with LastHwCount tracking it. -/
def encoderAtWrap : Encoder_HandleTypeDef :=
  { CountsPerRevolution := 1000, TotalCount := 0, LastCount := 0,
    LastHwCount := 65534, Speed := 0, LastTimeMs := 0, ARR := deployedARR }

/-- Freshly initialized encoder handle of the RPM scenario (cpr = 1000). -/
def encoderFresh : Encoder_HandleTypeDef :=
  { CountsPerRevolution := 1000, TotalCount := 0, LastCount := 0,
    LastHwCount := 0, Speed := 0, LastTimeMs := 0, ARR := deployedARR }

/-- A menu item with text and no payload pointers. -/
def demoItem : MenuItem :=
  { General_item_text := some "M", General_callback := false
    General_SubMenuPage := false, List_BoolRadioBox := none }

/-- A one-item LIST page (item plus sentinel). -/
def demoPage : MenuPage :=
  { General_MenuType := MenuType.MENU_TYPE_LIST
    General_MenuItems := [demoItem, sentinelItem]
    General_ParentMenuPage := false, ActiveMenuID := 0, Slot := 0 }

/-- A window with continue-time threshold 100 ticks and no bound data. -/
def demoWindow : MenuWindow :=
  { ContinueTime50 := 100, Prob_Data_Int := none, Prob_MinData := 0
    Prob_MaxData := 0, Prob_DataStep := 0 }

/-- UI state with the window visible (sustain counter at 5 of 100) and the
Enter key currently held down, so that a released reading forms an Enter
release edge. -/
def stWindowEnterHeld : UIState :=
  { OLED_UI_Key := { Up := true, Down := true, Enter := false, Back := true }
    OLED_UI_LastKey := { Up := true, Down := true, Enter := true, Back := true }
    KeyEnterFlag := MutexFlag.FLAGEND, FadeOutFlag := MutexFlag.FLAGEND
    EncoderEnabled := true, SustainFlag := true, SustainCount := 5
    CurrentWindow := some demoWindow, CurrentMenuPage := demoPage }

/-- UI state with the window visible (sustain counter at 5 of 100) and the
Back key currently held down. -/
def stWindowBackHeld : UIState :=
  { OLED_UI_Key := { Up := true, Down := true, Enter := true, Back := false }
    OLED_UI_LastKey := { Up := true, Down := true, Enter := true, Back := true }
    KeyEnterFlag := MutexFlag.FLAGEND, FadeOutFlag := MutexFlag.FLAGEND
    EncoderEnabled := true, SustainFlag := true, SustainCount := 5
    CurrentWindow := some demoWindow, CurrentMenuPage := demoPage }

/-- UI state with the callback mutex raised (KeyEnterFlag = FLAGSTART) and
all keys released. -/
def stCallbackRunning : UIState :=
  { OLED_UI_Key := { Up := true, Down := true, Enter := true, Back := true }
    OLED_UI_LastKey := { Up := true, Down := true, Enter := true, Back := true }
    KeyEnterFlag := MutexFlag.FLAGSTART, FadeOutFlag := MutexFlag.FLAGEND
    EncoderEnabled := false, SustainFlag := false, SustainCount := 0
    CurrentWindow := none, CurrentMenuPage := demoPage }

/-- A key reading with the Up key pressed and the rest released. -/
def rawUpPressed : OLED_Key :=
  { Up := false, Down := true, Enter := true, Back := true }

/-- A key reading with every key released. -/
def rawAllReleased : OLED_Key :=
  { Up := true, Down := true, Enter := true, Back := true }

/-- A menu item carrying both a radio boolean (initially false) and a
callback, to exercise the unconditional toggle. -/
def radioItem : MenuItem :=
  { General_item_text := some "R", General_callback := true
    General_SubMenuPage := false, List_BoolRadioBox := some false }

/-- A one-item LIST page whose item is radioItem. -/
def radioPage : MenuPage :=
  { General_MenuType := MenuType.MENU_TYPE_LIST
    General_MenuItems := [radioItem, sentinelItem]
    General_ParentMenuPage := false, ActiveMenuID := 0, Slot := 0 }

/-- A UI state on radioPage with no window and a fresh Enter release edge
already recorded (Key.Enter released now, held on the previous tick). -/
def stRadioEnterEdge : UIState :=
  { OLED_UI_Key := { Up := true, Down := true, Enter := true, Back := true }
    OLED_UI_LastKey := { Up := true, Down := true, Enter := false, Back := true }
    KeyEnterFlag := MutexFlag.FLAGEND, FadeOutFlag := MutexFlag.FLAGEND
    EncoderEnabled := true, SustainFlag := false, SustainCount := 0
    CurrentWindow := none, CurrentMenuPage := radioPage }

/-- A UI state on demoPage, no window, with the Down key currently held so
that an all-released reading forms a Down release edge. -/
def stMenuDownHeld : UIState :=
  { OLED_UI_Key := { Up := true, Down := false, Enter := true, Back := true }
    OLED_UI_LastKey := { Up := true, Down := true, Enter := true, Back := true }
    KeyEnterFlag := MutexFlag.FLAGEND, FadeOutFlag := MutexFlag.FLAGEND
    EncoderEnabled := true, SustainFlag := false, SustainCount := 0
    CurrentWindow := none, CurrentMenuPage := demoPage }

/-- A UI state on demoPage, no window, with the Up key currently held so
that an all-released reading forms an Up release edge. -/
def stMenuUpHeld : UIState :=
  { OLED_UI_Key := { Up := false, Down := true, Enter := true, Back := true }
    OLED_UI_LastKey := { Up := true, Down := true, Enter := true, Back := true }
    KeyEnterFlag := MutexFlag.FLAGEND, FadeOutFlag := MutexFlag.FLAGEND
    EncoderEnabled := true, SustainFlag := false, SustainCount := 0
    CurrentWindow := none, CurrentMenuPage := demoPage }

/-- A UI state with the window visible, sustain counter at 0, and every key
released and unchanged, so that further ticks with the same reading are
quiescent. -/
def stWindowQuiet : UIState :=
  { OLED_UI_Key := { Up := true, Down := true, Enter := true, Back := true }
    OLED_UI_LastKey := { Up := true, Down := true, Enter := true, Back := true }
    KeyEnterFlag := MutexFlag.FLAGEND, FadeOutFlag := MutexFlag.FLAGEND
    EncoderEnabled := true, SustainFlag := true, SustainCount := 0
    CurrentWindow := some demoWindow, CurrentMenuPage := demoPage }

/-- The delta that encoder_update actually folds into TotalCount under the
deployed configuration (ARR = 0xFFFE): the signed 16-bit representative of
the hardware count difference modulo 2^16, except that the single value
-32768 is mapped to +32767 by the half_max correction branch. -/
def foldedDelta16 (last cnt : Nat) : Int :=
  let d0 := wrap16 (((cnt % 65536 : Nat) : Int) - (last : Int))
  if d0 = -32768 then 32767 else d0

/-! ## Helper lemmas -/

theorem wrap16_lb (z : Int) : -32768 ≤ wrap16 z := by
  simp only [wrap16]
  split <;> omega

theorem wrap16_ub (z : Int) : wrap16 z ≤ 32767 := by
  simp only [wrap16]
  split <;> omega

theorem wrap16_eq_self {z : Int} (h1 : -32768 ≤ z) (h2 : z ≤ 32767) :
    wrap16 z = z := by
  simp only [wrap16]
  split <;> omega

theorem wrap32_eq_self {z : Int} (h1 : -2147483648 ≤ z) (h2 : z < 2147483648) :
    wrap32 z = z := by
  simp only [wrap32]
  split <;> omega

/-! ## Claim C1: protection loop tick -/

/-- C1.  On a tick of the 1 ms protection timer with the batch-ready flag
set, current_handler averages the 200 samples, clears the flag, and drives
the motor-enable pin low exactly when the average exceeds 3400; a buffer of
200 samples of 3500 cuts the motor in one tick, a buffer of 200 samples of
3300 leaves the pin unchanged. -/
theorem C1_protection_tick :
    (∀ (buf : Fin 200 → Nat) (s : ProtectionState),
        s.current_adcAverageReady = true →
        (current_handler true buf s).current_adcAverageReady = false ∧
        (current_handler true buf s).current_adcAverage = currentBufferSum buf / 200 ∧
        (CURRENT_CRITICAL_THRESHOLD < currentBufferSum buf / 200 →
          (current_handler true buf s).motorEnable = false) ∧
        (¬ CURRENT_CRITICAL_THRESHOLD < currentBufferSum buf / 200 →
          (current_handler true buf s).motorEnable = s.motorEnable)) ∧
    (current_handler true (fun _ => 3500)
      { current_adcAverageReady := true, current_adcAverage := 0,
        motorEnable := true }).motorEnable = false ∧
    (current_handler true (fun _ => 3300)
      { current_adcAverageReady := true, current_adcAverage := 0,
        motorEnable := true }).motorEnable = true ∧
    (current_handler true (fun _ => 3500)
      { current_adcAverageReady := true, current_adcAverage := 0,
        motorEnable := true }).current_adcAverageReady = false := by
  have hsum : ∀ c : Nat, currentBufferSum (fun _ => c) = 200 * c := by
    intro c
    simp [currentBufferSum, Finset.sum_const, Finset.card_univ]
  refine ⟨?_, ?_, ?_, ?_⟩
  · intro buf s hs
    refine ⟨?_, ?_, ?_, ?_⟩ <;> simp [current_handler, hs] <;> intro h <;> simp [h]
  · simp [current_handler, hsum, CURRENT_CRITICAL_THRESHOLD]
  · simp [current_handler, hsum, CURRENT_CRITICAL_THRESHOLD]
  · simp [current_handler, hsum, CURRENT_CRITICAL_THRESHOLD]

/-- Witness for C1 at a concrete buffer and state. -/
theorem C1_protection_tick_witness :
    (current_handler true (fun _ => 3300)
      { current_adcAverageReady := true, current_adcAverage := 0,
        motorEnable := true }).current_adcAverageReady = false :=
  (C1_protection_tick.1 (fun _ => 3300)
    { current_adcAverageReady := true, current_adcAverage := 0,
      motorEnable := true } rfl).1

/-! ## Claim C3: button debounce scenario -/

/-- C3 counterexample.  After the first six samples 0,1,0,1,1,1 of the
scenario the committed state is still released: is_pressed does not become
true on sample 6 (counting samples from 1, as the same claim counts the
release commit at sample 11), because the low nibble after sample 6 is
0b0111, not 0b1111. -/
theorem C3_counterexample :
    ¬ button_is_pressed (button_scan button_init_state
        [false, true, false, true, true, true]) = true := by
  decide

/-- C3 amended.  For the raw sequence 0,1,0,1,1,1,1,0,0,0,0: the committed
state becomes pressed on sample 7 (the fourth consecutive 1), not sample 6;
the press latch is set exactly once along the scan; the committed state
returns to released on sample 11 (the fourth consecutive 0, still pressed
after sample 10); button_pressed then returns true exactly once and false
afterwards; and a shift-register low nibble other than 0b1111 and 0b0000
never changes the committed state. -/
theorem C3_button_debounce :
    button_is_pressed (button_scan button_init_state
      [false, true, false, true, true, true]) = false ∧
    button_is_pressed (button_scan button_init_state
      [false, true, false, true, true, true, true]) = true ∧
    (button_scan button_init_state
      [false, true, false, true, true, true, true]).press_event = true ∧
    press_latch_sets (button_scan_trace button_init_state debounce_scenario) = 1 ∧
    button_is_pressed (button_scan button_init_state
      [false, true, false, true, true, true, true, false, false, false]) = true ∧
    button_is_pressed (button_scan button_init_state debounce_scenario) = false ∧
    (button_pressed (button_scan button_init_state debounce_scenario)).1 = true ∧
    (button_pressed
      (button_pressed (button_scan button_init_state debounce_scenario)).2).1 = false ∧
    (∀ (h : Button_HandleTypeDef) (raw : Bool),
      (button_debounce_shift_register h raw).debounce_shift_reg &&&
          BUTTON_DEBOUNCE_PATTERN ≠ BUTTON_DEBOUNCE_PATTERN →
      (button_debounce_shift_register h raw).debounce_shift_reg &&&
          BUTTON_DEBOUNCE_PATTERN ≠ 0 →
      (button_debounce_shift_register h raw).current_state = h.current_state) := by
  refine ⟨by decide, by decide, by decide, by decide, by decide, by decide,
    by decide, by decide, ?_⟩
  intro h raw hne15 hne0
  have hreg : (button_debounce_shift_register h raw).debounce_shift_reg
      = (h.debounce_shift_reg * 2 + (if raw then 1 else 0)) % 256 := by
    simp only [button_debounce_shift_register]
    split <;> (try split) <;> (try split) <;> (try split) <;> rfl
  rw [hreg] at hne15 hne0
  simp only [button_debounce_shift_register]
  rw [if_neg hne15, if_neg hne0]

/-- Witness for C3 at a concrete handle and sample: a bouncing nibble leaves
the committed state unchanged. -/
theorem C3_button_debounce_witness :
    (button_debounce_shift_register button_init_state true).current_state
      = button_init_state.current_state :=
  C3_button_debounce.2.2.2.2.2.2.2.2 button_init_state true
    (by decide) (by decide)

/-! ## Claim C8: DMA disable-wait spin -/

/-- On a stream whose EN bit never reads clear, the disable-wait loop never
exits, whatever the fuel. -/
theorem dmaDisableWaitFuel_stuck :
    ∀ (fuel i : Nat), dmaDisableWaitFuel (fun _ => true) fuel i = none := by
  intro fuel
  induction fuel with
  | zero => intro i; rfl
  | succ n ih => intro i; simp [dmaDisableWaitFuel, ih]

/-- If the loop exits within some fuel, some read of the EN bit was clear. -/
theorem dmaDisableWaitFuel_isSome_imp {en : Nat → Bool} :
    ∀ (fuel i : Nat), (dmaDisableWaitFuel en fuel i).isSome = true →
      ∃ n, en n = false := by
  intro fuel
  induction fuel with
  | zero => intro i h; simp [dmaDisableWaitFuel] at h
  | succ m ih =>
    intro i h
    by_cases hi : en i
    · exact ih (i + 1) (by simpa [dmaDisableWaitFuel, hi] using h)
    · exact ⟨i, by simpa using hi⟩

/-- If the EN bit reads clear within fuel reads from i, the loop exits. -/
theorem dmaDisableWaitFuel_isSome_of {en : Nat → Bool} :
    ∀ (fuel i : Nat), (∃ k, k < fuel ∧ en (i + k) = false) →
      (dmaDisableWaitFuel en fuel i).isSome = true := by
  intro fuel
  induction fuel with
  | zero => rintro i ⟨k, hk, -⟩; omega
  | succ m ih =>
    rintro i ⟨k, hk, hen⟩
    by_cases hi : en i
    · have hk0 : k ≠ 0 := by
        intro h0
        rw [h0, Nat.add_zero] at hen
        rw [hen] at hi
        exact Bool.noConfusion hi
      have : (dmaDisableWaitFuel en m (i + 1)).isSome = true := by
        refine ih (i + 1) ⟨k - 1, by omega, ?_⟩
        have : i + 1 + (k - 1) = i + k := by omega
        rw [this]
        exact hen
      simpa [dmaDisableWaitFuel, hi]
    · simp [dmaDisableWaitFuel, hi]

/-- C8 counterexample.  The claim, that there is a fixed bound on the
disable-wait spin iterations (a necessary condition for the claimed
it-terminates-and-fails behavior, since dma_init and adc_dma_init return
void and the loop has no iteration counter), is false: on the trace where
the EN bit always reads set, no fuel makes the loop exit. -/
theorem C8_counterexample : ¬ dmaSpinBoundedClaim := by
  rintro ⟨B, hB⟩
  have h := hB (fun _ => true)
  rw [dmaDisableWaitFuel_stuck B 0] at h
  exact Bool.noConfusion h

/-- C8 amended.  The disable-wait spin in dma_init (and the identical open
spin in adc_dma_init) is unbounded and unreported: it terminates exactly on
those EN-bit traces where some read eventually returns clear, and when the
bit never reads clear the initialization does not terminate at all; no
PeripheralBusy or any other status exists, dma_init returning void. -/
theorem C8_dma_spin_unbounded :
    ∀ en : Nat → Bool, dmaDisableSpinExits en ↔ (∃ n, en n = false) := by
  intro en
  constructor
  · rintro ⟨fuel, h⟩
    exact dmaDisableWaitFuel_isSome_imp fuel 0 h
  · rintro ⟨n, hn⟩
    exact ⟨n + 1, dmaDisableWaitFuel_isSome_of (n + 1) 0 ⟨n, by omega, by simpa using hn⟩⟩

/-- Witness for C8 amended at a concrete trace: the spin exits on the trace
whose very first read is clear. -/
theorem C8_dma_spin_unbounded_witness :
    dmaDisableSpinExits (fun _ => false) :=
  (C8_dma_spin_unbounded (fun _ => false)).mpr ⟨0, rfl⟩

/-! ## Claim C2: encoder_update folding -/

/-- C2 counterexample.  At the deployed configuration (ARR = 0xFFFE, so
ARR + 1 = 65535) with LastHwCount = 65534 and a current hardware count of 2
(the counter wrapped at ARR), encoder_update adds 4 to TotalCount, while
the claimed reduction modulo ARR + 1 of the delta 2 - 65534 gives 3: the
claim fails because the int16_t cast folds modulo 2^16, not modulo
ARR + 1. -/
theorem C2_counterexample : ¬ encoderUpdateClaim encoderAtWrap 2 := by
  unfold encoderUpdateClaim encoderAtWrap deployedARR
  decide

/-- C2 amended.  For the deployed ARR = 0xFFFE, one encoder_update call
moves TotalCount by the signed 16-bit representative of
(current - LastHwCount) modulo 2^16, with the single representative -32768
replaced by +32767; the folded delta always lies between -32767 and 32767
(the range the claim states for modulus ARR + 1), the movement is exact
whenever the int32_t accumulator does not overflow, and LastHwCount is
updated to the current count. -/
theorem C2_encoder_update :
    ∀ (h : Encoder_HandleTypeDef) (cnt : Nat), h.ARR = deployedARR →
    (encoder_update h cnt).TotalCount
        = wrap32 (h.TotalCount + foldedDelta16 h.LastHwCount cnt) ∧
    -32767 ≤ foldedDelta16 h.LastHwCount cnt ∧
    foldedDelta16 h.LastHwCount cnt ≤ 32767 ∧
    (encoder_update h cnt).LastHwCount = cnt % 65536 ∧
    (-2147483648 ≤ h.TotalCount + foldedDelta16 h.LastHwCount cnt →
      h.TotalCount + foldedDelta16 h.LastHwCount cnt < 2147483648 →
      (encoder_update h cnt).TotalCount - h.TotalCount
        = foldedDelta16 h.LastHwCount cnt) := by
  intro h cnt hARR
  have hd0lb := wrap16_lb (((cnt % 65536 : Nat) : Int) - (h.LastHwCount : Int))
  have hd0ub := wrap16_ub (((cnt % 65536 : Nat) : Int) - (h.LastHwCount : Int))
  set d0 := wrap16 (((cnt % 65536 : Nat) : Int) - (h.LastHwCount : Int)) with hd0
  have e1 : ((h.ARR + 1) % 65536 : Nat) = 65535 := by rw [hARR]; rfl
  have e2 : ((65535 : Nat) / 2 : Nat) = 32767 := by norm_num
  have e3 : wrap16 ((32767 : Nat) : Int) = 32767 := by decide
  have e4 : wrap16 ((65535 : Nat) : Int) = -1 := by decide
  have hdelta :
      (if wrap16 ((((h.ARR + 1) % 65536) / 2 : Nat) : Int) < d0 then
        wrap16 (d0 - wrap16 ((((h.ARR + 1) % 65536 : Nat)) : Int))
      else if d0 < -wrap16 ((((h.ARR + 1) % 65536) / 2 : Nat) : Int) then
        wrap16 (d0 + wrap16 ((((h.ARR + 1) % 65536 : Nat)) : Int))
      else d0) = foldedDelta16 h.LastHwCount cnt := by
    rw [e1, e2, e3, e4]
    simp only [foldedDelta16, ← hd0]
    have hnotgt : ¬ (32767 : Int) < d0 := by omega
    rw [if_neg hnotgt]
    by_cases hmin : d0 = -32768
    · rw [if_pos (by omega : d0 < -(32767 : Int)), if_pos hmin, hmin]
      decide
    · rw [if_neg (by omega : ¬ d0 < -(32767 : Int)), if_neg hmin]
  have hTC : (encoder_update h cnt).TotalCount
      = wrap32 (h.TotalCount + foldedDelta16 h.LastHwCount cnt) := by
    simp only [encoder_update, ← hd0, hdelta]
  have hLH : (encoder_update h cnt).LastHwCount = cnt % 65536 := by
    simp only [encoder_update]
  refine ⟨hTC, ?_, ?_, hLH, ?_⟩
  · simp only [foldedDelta16, ← hd0]
    split <;> omega
  · simp only [foldedDelta16, ← hd0]
    split <;> omega
  · intro hlo hhi
    rw [hTC, wrap32_eq_self hlo hhi]
    ring

/-- Witness for C2 amended at the wrap instance: encoder_update at
LastHwCount = 65534, count 2 folds a delta of 4. -/
theorem C2_encoder_update_witness :
    (encoder_update encoderAtWrap 2).TotalCount - encoderAtWrap.TotalCount
      = foldedDelta16 encoderAtWrap.LastHwCount 2 :=
  (C2_encoder_update encoderAtWrap 2 rfl).2.2.2.2 (by decide) (by decide)

/-! ## Claim C7: encoder RPM calculation -/

theorem encoder_update_LastTimeMs (h : Encoder_HandleTypeDef) (cnt : Nat) :
    (encoder_update h cnt).LastTimeMs = h.LastTimeMs := by
  simp only [encoder_update]

theorem encoder_update_Speed (h : Encoder_HandleTypeDef) (cnt : Nat) :
    (encoder_update h cnt).Speed = h.Speed := by
  simp only [encoder_update]

theorem encoder_update_cpr (h : Encoder_HandleTypeDef) (cnt : Nat) :
    (encoder_update h cnt).CountsPerRevolution = h.CountsPerRevolution := by
  simp only [encoder_update]

theorem encoder_update_LastCount (h : Encoder_HandleTypeDef) (cnt : Nat) :
    (encoder_update h cnt).LastCount = h.LastCount := by
  simp only [encoder_update]

/-- C7.  encoder_calculate_speed_rpm: a first call (LastTimeMs still 0)
seeds LastTimeMs and LastCount and returns 0; a later call with zero
elapsed time returns the cached Speed and changes neither Speed nor
LastCount nor LastTimeMs; otherwise the speed is
(total - LastCount) * 60000 / (cpr * dt) computed exactly in 64-bit
arithmetic (stated here under the no-int32-overflow side conditions under
which the stored int32_t equals that quotient), and LastCount and
LastTimeMs are updated; with cpr = 1000 and total rising 0 to 500 over
100 ms the returned speed is 300 RPM. -/
theorem C7_encoder_rpm :
    (∀ (h : Encoder_HandleTypeDef) (cnt now : Nat),
      h.CountsPerRevolution ≠ 0 → h.LastTimeMs = 0 →
        (encoder_calculate_speed_rpm h cnt now).1 = 0 ∧
        (encoder_calculate_speed_rpm h cnt now).2.LastTimeMs = now % 4294967296 ∧
        (encoder_calculate_speed_rpm h cnt now).2.LastCount
          = (encoder_update h cnt).TotalCount) ∧
    (∀ (h : Encoder_HandleTypeDef) (cnt now : Nat),
      h.CountsPerRevolution ≠ 0 → h.LastTimeMs ≠ 0 →
      (now % 4294967296 + 4294967296 - h.LastTimeMs) % 4294967296 = 0 →
        (encoder_calculate_speed_rpm h cnt now).1 = h.Speed ∧
        (encoder_calculate_speed_rpm h cnt now).2.Speed = h.Speed ∧
        (encoder_calculate_speed_rpm h cnt now).2.LastCount = h.LastCount ∧
        (encoder_calculate_speed_rpm h cnt now).2.LastTimeMs = h.LastTimeMs) ∧
    (∀ (h : Encoder_HandleTypeDef) (cnt now : Nat),
      h.CountsPerRevolution ≠ 0 → h.LastTimeMs ≠ 0 →
      (now % 4294967296 + 4294967296 - h.LastTimeMs) % 4294967296 ≠ 0 →
      -2147483648 ≤ (encoder_update h cnt).TotalCount - h.LastCount →
      (encoder_update h cnt).TotalCount - h.LastCount < 2147483648 →
      -2147483648 ≤ Int.tdiv (((encoder_update h cnt).TotalCount - h.LastCount) * 60000)
        ((h.CountsPerRevolution : Int)
          * (((now % 4294967296 + 4294967296 - h.LastTimeMs) % 4294967296 : Nat) : Int)) →
      Int.tdiv (((encoder_update h cnt).TotalCount - h.LastCount) * 60000)
        ((h.CountsPerRevolution : Int)
          * (((now % 4294967296 + 4294967296 - h.LastTimeMs) % 4294967296 : Nat) : Int))
        < 2147483648 →
        (encoder_calculate_speed_rpm h cnt now).1
          = Int.tdiv (((encoder_update h cnt).TotalCount - h.LastCount) * 60000)
              ((h.CountsPerRevolution : Int)
                * (((now % 4294967296 + 4294967296 - h.LastTimeMs) % 4294967296 : Nat) : Int)) ∧
        (encoder_calculate_speed_rpm h cnt now).2.Speed
          = (encoder_calculate_speed_rpm h cnt now).1 ∧
        (encoder_calculate_speed_rpm h cnt now).2.LastCount
          = (encoder_update h cnt).TotalCount ∧
        (encoder_calculate_speed_rpm h cnt now).2.LastTimeMs = now % 4294967296) ∧
    (encoder_calculate_speed_rpm encoderFresh 0 50).1 = 0 ∧
    (encoder_calculate_speed_rpm
      (encoder_calculate_speed_rpm encoderFresh 0 50).2 500 150).1 = 300 := by
  refine ⟨?_, ?_, ?_, by decide, by decide⟩
  · intro h cnt now hcpr h0
    simp [encoder_calculate_speed_rpm, hcpr, encoder_update_LastTimeMs, h0]
  · intro h cnt now hcpr h0 hdt
    simp [encoder_calculate_speed_rpm, hcpr, encoder_update_LastTimeMs, h0,
      hdt, encoder_update_Speed, encoder_update_LastCount]
  · intro h cnt now hcpr h0 hdt hclo hchi hqlo hqhi
    have hcd : wrap32 ((encoder_update h cnt).TotalCount
        - (encoder_update h cnt).LastCount)
        = (encoder_update h cnt).TotalCount - h.LastCount := by
      rw [encoder_update_LastCount]
      exact wrap32_eq_self hclo hchi
    simp [encoder_calculate_speed_rpm, hcpr, encoder_update_LastTimeMs, h0,
      hdt, hcd, encoder_update_cpr, wrap32_eq_self hqlo hqhi]
    exact wrap32_eq_self (by exact_mod_cast hqlo) (by exact_mod_cast hqhi)

/-- Witness for C7: the first call of the scenario applies the first-call
branch of the theorem. -/
theorem C7_encoder_rpm_witness :
    (encoder_calculate_speed_rpm encoderFresh 0 50).1 = 0 :=
  (C7_encoder_rpm.1 encoderFresh 0 50 (by decide) rfl).1

/-! ## Claim C5: UNLINEAR animator termination -/

/-- C5 counterexample.  At page speed 100 the UNLINEAR step from current 0
toward target 10 oscillates forever between 0 and 20 (the proportional gain
is 0.02 * 100 = 2, so each step mirrors the value across the target, and
the distance 10 never drops below the snap threshold 100 / 20 = 5): there
is no finite number of steps after which current equals target, refuting
the claim for speeds of 100 and above. -/
theorem C5_counterexample : ¬ unlinearTerminates 100 ⟨0, 10, 0, 0⟩ := by
  have hstep0 : ChangeFloatNumUnlinear 100 ⟨0, 10, 0, 0⟩ = ⟨20, 10, 10, 0⟩ := by
    norm_num [ChangeFloatNumUnlinear]
  have hstep1 : ChangeFloatNumUnlinear 100 ⟨20, 10, 10, 0⟩ = ⟨0, 10, -10, 10⟩ := by
    norm_num [ChangeFloatNumUnlinear]
  have hB : ChangeFloatNumUnlinear 100 ⟨0, 10, -10, 10⟩ = ⟨20, 10, 10, -10⟩ := by
    norm_num [ChangeFloatNumUnlinear]
  have hC : ChangeFloatNumUnlinear 100 ⟨20, 10, 10, -10⟩ = ⟨0, 10, -10, 10⟩ := by
    norm_num [ChangeFloatNumUnlinear]
  rintro ⟨n, hn⟩
  have hP : ∀ m, (ChangeFloatNumUnlinear 100)^[m] (⟨0, 10, 0, 0⟩ : OLED_ChangeDistance)
        = ⟨0, 10, 0, 0⟩
      ∨ (ChangeFloatNumUnlinear 100)^[m] (⟨0, 10, 0, 0⟩ : OLED_ChangeDistance)
        = ⟨20, 10, 10, 0⟩
      ∨ (ChangeFloatNumUnlinear 100)^[m] (⟨0, 10, 0, 0⟩ : OLED_ChangeDistance)
        = ⟨0, 10, -10, 10⟩
      ∨ (ChangeFloatNumUnlinear 100)^[m] (⟨0, 10, 0, 0⟩ : OLED_ChangeDistance)
        = ⟨20, 10, 10, -10⟩ := by
    intro m
    induction m with
    | zero => exact Or.inl rfl
    | succ k ih =>
      rw [Function.iterate_succ_apply']
      rcases ih with h | h | h | h <;> rw [h]
      · rw [hstep0]; exact Or.inr (Or.inl rfl)
      · rw [hstep1]; exact Or.inr (Or.inr (Or.inl rfl))
      · rw [hB]; exact Or.inr (Or.inr (Or.inr rfl))
      · rw [hC]; exact Or.inr (Or.inr (Or.inl rfl))
  rcases hP n with h | h | h | h <;> rw [h] at hn <;> norm_num at hn

/-- C5 amended.  For every UNLINEAR animated scalar with page speed
strictly between 0 and 100 (exclusive), from every initial current and
target value, finitely many update steps reach the target exactly: the
error shrinks geometrically with ratio 1 - speed / 50 of magnitude below 1
until the snap threshold speed / 20 captures it.  (The single-precision
float arithmetic of the source is idealized as exact rational arithmetic
here; at speeds of 100 and above the idealized law fails, see the
counterexample.) -/
theorem C5_unlinear_terminates :
    ∀ speed : ℚ, 0 < speed → speed < 100 →
    ∀ s : OLED_ChangeDistance, unlinearTerminates speed s := by
  intro speed hpos hlt s
  by_cases h0 : s.CurrentDistance = s.TargetDistance
  · exact ⟨0, h0⟩
  have hsle : ¬ speed ≤ 0 := not_le.mpr hpos
  have htpres : ∀ u : OLED_ChangeDistance,
      (ChangeFloatNumUnlinear speed u).TargetDistance = u.TargetDistance := by
    intro u
    simp only [ChangeFloatNumUnlinear]
    repeat' split
    all_goals rfl
  have hfix : ∀ u : OLED_ChangeDistance, u.CurrentDistance = u.TargetDistance →
      ChangeFloatNumUnlinear speed u = u := by
    intro u hu
    simp [ChangeFloatNumUnlinear, hu]
  have hinv : ∀ n,
      ((ChangeFloatNumUnlinear speed)^[n] s).TargetDistance = s.TargetDistance ∧
      (((ChangeFloatNumUnlinear speed)^[n] s).CurrentDistance = s.TargetDistance ∨
        s.TargetDistance - ((ChangeFloatNumUnlinear speed)^[n] s).CurrentDistance
          = (1 - speed / 50) ^ n * (s.TargetDistance - s.CurrentDistance)) := by
    intro n
    induction n with
    | zero =>
      refine ⟨rfl, Or.inr ?_⟩
      rw [Function.iterate_zero_apply]
      ring
    | succ k ih =>
      obtain ⟨iht, ihc⟩ := ih
      rw [Function.iterate_succ_apply']
      set u := (ChangeFloatNumUnlinear speed)^[k] s with hu
      refine ⟨by rw [htpres u, iht], ?_⟩
      by_cases hcur : u.CurrentDistance = u.TargetDistance
      · left
        rw [hfix u hcur, hcur, iht]
      · rcases ihc with hc | hc
        · exact absurd (hc.trans iht.symm) hcur
        · simp only [ChangeFloatNumUnlinear, if_neg hcur, if_neg hsle]
          split
          · left; exact iht
          · right
            dsimp only
            rw [iht, pow_succ]
            linear_combination (1 - speed / 50) * hc
  have he0 : s.TargetDistance - s.CurrentDistance ≠ 0 := sub_ne_zero.mpr (Ne.symm h0)
  have habs : |1 - speed / 50| < 1 := by
    rw [abs_lt]
    constructor <;> [linarith; linarith]
  have hd : (0 : ℚ) < speed / 20 / |s.TargetDistance - s.CurrentDistance| := by
    apply div_pos (by linarith) (abs_pos.mpr he0)
  obtain ⟨N, hN⟩ := exists_pow_lt_of_lt_one hd habs
  have hNd : |1 - speed / 50| ^ N * |s.TargetDistance - s.CurrentDistance| < speed / 20 := by
    rw [← lt_div_iff₀ (abs_pos.mpr he0)]
    exact hN
  refine ⟨N + 1, ?_⟩
  obtain ⟨iht, ihc⟩ := hinv N
  rw [Function.iterate_succ_apply']
  set u := (ChangeFloatNumUnlinear speed)^[N] s with hu
  by_cases hcur : u.CurrentDistance = u.TargetDistance
  · rw [hfix u hcur, hcur, iht]
  rcases ihc with hc | hc
  · exact absurd (hc.trans iht.symm) hcur
  · -- snap triggers on this step
    have hkey : u.CurrentDistance + 1 / 50 * speed * (u.TargetDistance - u.CurrentDistance)
        - u.TargetDistance
        = -((1 - speed / 50) ^ (N + 1) * (s.TargetDistance - s.CurrentDistance)) := by
      rw [iht, pow_succ]
      linear_combination (-(1 - speed / 50)) * hc
    have hsnap : |u.CurrentDistance + 1 / 50 * speed * (u.TargetDistance - u.CurrentDistance)
        - u.TargetDistance| < speed / 20 := by
      rw [hkey, abs_neg, abs_mul, abs_pow]
      calc |1 - speed / 50| ^ (N + 1) * |s.TargetDistance - s.CurrentDistance|
          ≤ |1 - speed / 50| ^ N * |s.TargetDistance - s.CurrentDistance| := by
            apply mul_le_mul_of_nonneg_right _ (abs_nonneg _)
            exact pow_le_pow_of_le_one (abs_nonneg _) (le_of_lt habs) (by omega)
        _ < speed / 20 := hNd
    simp only [ChangeFloatNumUnlinear, if_neg hcur, if_neg hsle, if_pos hsnap]
    exact iht

/-- Witness for C5 amended at speed 50 from current 0, target 10. -/
theorem C5_unlinear_terminates_witness :
    unlinearTerminates 50 ⟨0, 10, 0, 0⟩ :=
  C5_unlinear_terminates 50 (by decide) (by decide) ⟨0, 10, 0, 0⟩

/-! ## OLED_UI interrupt handler: phase lemmas -/

-- UI helper lemmas scratch
theorem record_state (raw : OLED_Key) (enc : Int) (st : UIState) :
    (OLED_KeyAndEncoderRecord raw enc st).2
      = { st with OLED_UI_Key := raw, OLED_UI_LastKey := st.OLED_UI_Key } := rfl

theorem navUpStep_active (st : UIState) :
    (navUpStep st).CurrentMenuPage.ActiveMenuID
      = wrap16 (st.CurrentMenuPage.ActiveMenuID - 1) := by
  cases h : st.CurrentMenuPage.General_MenuType <;>
    simp [navUpStep, h] <;> split <;> rfl

theorem navDownStep_active (maxSlot : Int) (st : UIState) :
    (navDownStep maxSlot st).CurrentMenuPage.ActiveMenuID
      = wrap16 (st.CurrentMenuPage.ActiveMenuID + 1) := by
  cases h : st.CurrentMenuPage.General_MenuType <;>
    simp [navDownStep, h] <;> split <;> rfl

theorem navUpStep_keeps (st : UIState) :
    (navUpStep st).OLED_UI_Key = st.OLED_UI_Key ∧
    (navUpStep st).OLED_UI_LastKey = st.OLED_UI_LastKey ∧
    (navUpStep st).KeyEnterFlag = st.KeyEnterFlag ∧
    (navUpStep st).FadeOutFlag = st.FadeOutFlag ∧
    (navUpStep st).EncoderEnabled = st.EncoderEnabled ∧
    (navUpStep st).SustainFlag = st.SustainFlag ∧
    (navUpStep st).SustainCount = st.SustainCount ∧
    (navUpStep st).CurrentWindow = st.CurrentWindow ∧
    (navUpStep st).CurrentMenuPage.General_MenuType
      = st.CurrentMenuPage.General_MenuType ∧
    (navUpStep st).CurrentMenuPage.General_MenuItems
      = st.CurrentMenuPage.General_MenuItems := by
  cases h : st.CurrentMenuPage.General_MenuType <;>
    simp [navUpStep, h] <;> split <;> simp [h]

theorem navDownStep_keeps (maxSlot : Int) (st : UIState) :
    (navDownStep maxSlot st).OLED_UI_Key = st.OLED_UI_Key ∧
    (navDownStep maxSlot st).OLED_UI_LastKey = st.OLED_UI_LastKey ∧
    (navDownStep maxSlot st).KeyEnterFlag = st.KeyEnterFlag ∧
    (navDownStep maxSlot st).FadeOutFlag = st.FadeOutFlag ∧
    (navDownStep maxSlot st).EncoderEnabled = st.EncoderEnabled ∧
    (navDownStep maxSlot st).SustainFlag = st.SustainFlag ∧
    (navDownStep maxSlot st).SustainCount = st.SustainCount ∧
    (navDownStep maxSlot st).CurrentWindow = st.CurrentWindow ∧
    (navDownStep maxSlot st).CurrentMenuPage.General_MenuType
      = st.CurrentMenuPage.General_MenuType ∧
    (navDownStep maxSlot st).CurrentMenuPage.General_MenuItems
      = st.CurrentMenuPage.General_MenuItems := by
  cases h : st.CurrentMenuPage.General_MenuType <;>
    simp [navDownStep, h] <;> split <;> simp [h]

theorem navUp_iterate_active :
    ∀ (k : Nat) (st : UIState),
      st.CurrentMenuPage.ActiveMenuID ≤ 32767 →
      -32768 ≤ st.CurrentMenuPage.ActiveMenuID - k →
      (navUpStep^[k] st).CurrentMenuPage.ActiveMenuID
        = st.CurrentMenuPage.ActiveMenuID - k := by
  intro k
  induction k with
  | zero => intro st h1 h2; simp
  | succ m ih =>
    intro st h1 h2
    rw [Function.iterate_succ_apply]
    have hstep : (navUpStep st).CurrentMenuPage.ActiveMenuID
        = st.CurrentMenuPage.ActiveMenuID - 1 := by
      rw [navUpStep_active]
      apply wrap16_eq_self <;> push_cast at h2 ⊢ <;> omega
    have := ih (navUpStep st) (by rw [hstep]; omega)
      (by rw [hstep]; push_cast at h2 ⊢; omega)
    rw [this, hstep]
    push_cast
    ring

theorem navDown_iterate_active (maxSlot : Int) :
    ∀ (k : Nat) (st : UIState),
      -32768 ≤ st.CurrentMenuPage.ActiveMenuID →
      st.CurrentMenuPage.ActiveMenuID + k ≤ 32767 →
      ((navDownStep maxSlot)^[k] st).CurrentMenuPage.ActiveMenuID
        = st.CurrentMenuPage.ActiveMenuID + k := by
  intro k
  induction k with
  | zero => intro st h1 h2; simp
  | succ m ih =>
    intro st h1 h2
    rw [Function.iterate_succ_apply]
    have hstep : (navDownStep maxSlot st).CurrentMenuPage.ActiveMenuID
        = st.CurrentMenuPage.ActiveMenuID + 1 := by
      rw [navDownStep_active]
      apply wrap16_eq_self <;> push_cast at h2 ⊢ <;> omega
    have := ih (navDownStep maxSlot st) (by rw [hstep]; omega)
      (by rw [hstep]; push_cast at h2 ⊢; omega)
    rw [this, hstep]
    push_cast
    ring

theorem navUp_iterate_keeps :
    ∀ (k : Nat) (st : UIState),
      (navUpStep^[k] st).OLED_UI_Key = st.OLED_UI_Key ∧
      (navUpStep^[k] st).OLED_UI_LastKey = st.OLED_UI_LastKey ∧
      (navUpStep^[k] st).KeyEnterFlag = st.KeyEnterFlag ∧
      (navUpStep^[k] st).FadeOutFlag = st.FadeOutFlag ∧
      (navUpStep^[k] st).EncoderEnabled = st.EncoderEnabled ∧
      (navUpStep^[k] st).SustainFlag = st.SustainFlag ∧
      (navUpStep^[k] st).SustainCount = st.SustainCount ∧
      (navUpStep^[k] st).CurrentWindow = st.CurrentWindow ∧
      (navUpStep^[k] st).CurrentMenuPage.General_MenuType
        = st.CurrentMenuPage.General_MenuType ∧
      (navUpStep^[k] st).CurrentMenuPage.General_MenuItems
        = st.CurrentMenuPage.General_MenuItems := by
  intro k
  induction k with
  | zero => intro st; simp
  | succ m ih =>
    intro st
    rw [Function.iterate_succ_apply]
    obtain ⟨k1, k2, k3, k4, k5, k6, k7, k8, k9, k10⟩ := ih (navUpStep st)
    obtain ⟨s1, s2, s3, s4, s5, s6, s7, s8, s9, s10⟩ := navUpStep_keeps st
    exact ⟨k1.trans s1, k2.trans s2, k3.trans s3, k4.trans s4, k5.trans s5,
      k6.trans s6, k7.trans s7, k8.trans s8, k9.trans s9, k10.trans s10⟩

theorem navDown_iterate_keeps (maxSlot : Int) :
    ∀ (k : Nat) (st : UIState),
      ((navDownStep maxSlot)^[k] st).OLED_UI_Key = st.OLED_UI_Key ∧
      ((navDownStep maxSlot)^[k] st).OLED_UI_LastKey = st.OLED_UI_LastKey ∧
      ((navDownStep maxSlot)^[k] st).KeyEnterFlag = st.KeyEnterFlag ∧
      ((navDownStep maxSlot)^[k] st).FadeOutFlag = st.FadeOutFlag ∧
      ((navDownStep maxSlot)^[k] st).EncoderEnabled = st.EncoderEnabled ∧
      ((navDownStep maxSlot)^[k] st).SustainFlag = st.SustainFlag ∧
      ((navDownStep maxSlot)^[k] st).SustainCount = st.SustainCount ∧
      ((navDownStep maxSlot)^[k] st).CurrentWindow = st.CurrentWindow ∧
      ((navDownStep maxSlot)^[k] st).CurrentMenuPage.General_MenuType
        = st.CurrentMenuPage.General_MenuType ∧
      ((navDownStep maxSlot)^[k] st).CurrentMenuPage.General_MenuItems
        = st.CurrentMenuPage.General_MenuItems := by
  intro k
  induction k with
  | zero => intro st; simp
  | succ m ih =>
    intro st
    rw [Function.iterate_succ_apply]
    obtain ⟨k1, k2, k3, k4, k5, k6, k7, k8, k9, k10⟩ := ih (navDownStep maxSlot st)
    obtain ⟨s1, s2, s3, s4, s5, s6, s7, s8, s9, s10⟩ := navDownStep_keeps maxSlot st
    exact ⟨k1.trans s1, k2.trans s2, k3.trans s3, k4.trans s4, k5.trans s5,
      k6.trans s6, k7.trans s7, k8.trans s8, k9.trans s9, k10.trans s10⟩

theorem applySafeInc_keeps (d maxSlot : Int) (st : UIState) :
    (applySafeInc d maxSlot st).OLED_UI_Key = st.OLED_UI_Key ∧
    (applySafeInc d maxSlot st).OLED_UI_LastKey = st.OLED_UI_LastKey ∧
    (applySafeInc d maxSlot st).KeyEnterFlag = st.KeyEnterFlag ∧
    (applySafeInc d maxSlot st).FadeOutFlag = st.FadeOutFlag ∧
    (applySafeInc d maxSlot st).EncoderEnabled = st.EncoderEnabled ∧
    (applySafeInc d maxSlot st).SustainFlag = st.SustainFlag ∧
    (applySafeInc d maxSlot st).SustainCount = st.SustainCount ∧
    (applySafeInc d maxSlot st).CurrentWindow = st.CurrentWindow ∧
    (applySafeInc d maxSlot st).CurrentMenuPage.General_MenuType
      = st.CurrentMenuPage.General_MenuType ∧
    (applySafeInc d maxSlot st).CurrentMenuPage.General_MenuItems
      = st.CurrentMenuPage.General_MenuItems := by
  by_cases hneg : d < 0
  · simpa [applySafeInc, hneg] using navUp_iterate_keeps (-d).toNat st
  · by_cases hpos : 0 < d
    · simpa [applySafeInc, hneg, hpos] using navDown_iterate_keeps maxSlot d.toNat st
    · have hz : d = 0 := by omega
      simp [applySafeInc, hz]

theorem applySafeInc_active (d maxSlot : Int) (st : UIState)
    (h1 : -32768 ≤ st.CurrentMenuPage.ActiveMenuID)
    (h2 : st.CurrentMenuPage.ActiveMenuID ≤ 32767)
    (h3 : -32768 ≤ st.CurrentMenuPage.ActiveMenuID + d)
    (h4 : st.CurrentMenuPage.ActiveMenuID + d ≤ 32767) :
    (applySafeInc d maxSlot st).CurrentMenuPage.ActiveMenuID
      = st.CurrentMenuPage.ActiveMenuID + d := by
  by_cases hneg : d < 0
  · have hcast : (((-d).toNat : Int)) = -d := Int.toNat_of_nonneg (by omega)
    have := navUp_iterate_active (-d).toNat st h2 (by rw [hcast]; omega)
    simp only [applySafeInc, if_pos hneg]
    rw [this, hcast]
    ring
  · by_cases hpos : 0 < d
    · have hcast : ((d.toNat : Int)) = d := Int.toNat_of_nonneg (by omega)
      have := navDown_iterate_active maxSlot d.toNat st h1 (by rw [hcast]; omega)
      simp only [applySafeInc, if_neg hneg, if_pos hpos]
      rw [this, hcast]
    · have hz : d = 0 := by omega
      simp [applySafeInc, hz]

theorem wrapIndex_spec (active N a2 : Int)
    (hN1 : 1 ≤ N) (hN2 : N ≤ 32767) (ha1 : 0 ≤ active) (ha2 : active ≤ N - 1)
    (hb1 : -32768 ≤ a2) (hb2 : a2 ≤ 32767) :
    0 ≤ active + wrap16 ((if N - 1 < a2 then 0
        else if a2 < 0 then wrap16 (N - 1) else a2) - active) ∧
    active + wrap16 ((if N - 1 < a2 then 0
        else if a2 < 0 then wrap16 (N - 1) else a2) - active) ≤ N - 1 := by
  have hw : wrap16 (N - 1) = N - 1 := wrap16_eq_self (by omega) (by omega)
  rw [hw]
  split_ifs with hcase1 hcase2
  · rw [wrap16_eq_self (by omega) (by omega)]; omega
  · rw [wrap16_eq_self (by omega) (by omega)]; omega
  · rw [wrap16_eq_self (by omega) (by omega)]; omega

theorem record_SafeInc_eq (raw : OLED_Key) (enc : Int) (st : UIState) :
    (OLED_KeyAndEncoderRecord raw enc st).1.SafeInc
      = wrap16 ((if (GetMenuItemNum st.CurrentMenuPage.General_MenuItems : Int) - 1
              < (if raw.Down ≠ st.OLED_UI_Key.Down ∧ raw.Down = true then
                  wrap16 ((if raw.Up ≠ st.OLED_UI_Key.Up ∧ raw.Up = true then
                      wrap16 (wrap16 (st.CurrentMenuPage.ActiveMenuID + wrap16 enc) - 1)
                    else wrap16 (st.CurrentMenuPage.ActiveMenuID + wrap16 enc)) + 1)
                else (if raw.Up ≠ st.OLED_UI_Key.Up ∧ raw.Up = true then
                    wrap16 (wrap16 (st.CurrentMenuPage.ActiveMenuID + wrap16 enc) - 1)
                  else wrap16 (st.CurrentMenuPage.ActiveMenuID + wrap16 enc)))
            then 0
            else if (if raw.Down ≠ st.OLED_UI_Key.Down ∧ raw.Down = true then
                  wrap16 ((if raw.Up ≠ st.OLED_UI_Key.Up ∧ raw.Up = true then
                      wrap16 (wrap16 (st.CurrentMenuPage.ActiveMenuID + wrap16 enc) - 1)
                    else wrap16 (st.CurrentMenuPage.ActiveMenuID + wrap16 enc)) + 1)
                else (if raw.Up ≠ st.OLED_UI_Key.Up ∧ raw.Up = true then
                    wrap16 (wrap16 (st.CurrentMenuPage.ActiveMenuID + wrap16 enc) - 1)
                  else wrap16 (st.CurrentMenuPage.ActiveMenuID + wrap16 enc))) < 0
            then wrap16 ((GetMenuItemNum st.CurrentMenuPage.General_MenuItems : Int) - 1)
            else (if raw.Down ≠ st.OLED_UI_Key.Down ∧ raw.Down = true then
                wrap16 ((if raw.Up ≠ st.OLED_UI_Key.Up ∧ raw.Up = true then
                    wrap16 (wrap16 (st.CurrentMenuPage.ActiveMenuID + wrap16 enc) - 1)
                  else wrap16 (st.CurrentMenuPage.ActiveMenuID + wrap16 enc)) + 1)
              else (if raw.Up ≠ st.OLED_UI_Key.Up ∧ raw.Up = true then
                  wrap16 (wrap16 (st.CurrentMenuPage.ActiveMenuID + wrap16 enc) - 1)
                else wrap16 (st.CurrentMenuPage.ActiveMenuID + wrap16 enc))))
          - st.CurrentMenuPage.ActiveMenuID) := rfl

theorem record_SafeInc_spec (raw : OLED_Key) (enc : Int) (st : UIState)
    (hN1 : 1 ≤ (GetMenuItemNum st.CurrentMenuPage.General_MenuItems : Int))
    (hN2 : (GetMenuItemNum st.CurrentMenuPage.General_MenuItems : Int) ≤ 32767)
    (ha1 : 0 ≤ st.CurrentMenuPage.ActiveMenuID)
    (ha2 : st.CurrentMenuPage.ActiveMenuID
      ≤ (GetMenuItemNum st.CurrentMenuPage.General_MenuItems : Int) - 1) :
    0 ≤ st.CurrentMenuPage.ActiveMenuID
        + (OLED_KeyAndEncoderRecord raw enc st).1.SafeInc ∧
    st.CurrentMenuPage.ActiveMenuID
        + (OLED_KeyAndEncoderRecord raw enc st).1.SafeInc
      ≤ (GetMenuItemNum st.CurrentMenuPage.General_MenuItems : Int) - 1 := by
  rw [record_SafeInc_eq]
  set a2 := (if raw.Down ≠ st.OLED_UI_Key.Down ∧ raw.Down = true then
      wrap16 ((if raw.Up ≠ st.OLED_UI_Key.Up ∧ raw.Up = true then
          wrap16 (wrap16 (st.CurrentMenuPage.ActiveMenuID + wrap16 enc) - 1)
        else wrap16 (st.CurrentMenuPage.ActiveMenuID + wrap16 enc)) + 1)
    else (if raw.Up ≠ st.OLED_UI_Key.Up ∧ raw.Up = true then
        wrap16 (wrap16 (st.CurrentMenuPage.ActiveMenuID + wrap16 enc) - 1)
      else wrap16 (st.CurrentMenuPage.ActiveMenuID + wrap16 enc))) with ha2def
  have hb1 : -32768 ≤ a2 := by
    rw [ha2def]; split_ifs <;> exact wrap16_lb _
  have hb2 : a2 ≤ 32767 := by
    rw [ha2def]; split_ifs <;> exact wrap16_ub _
  exact wrapIndex_spec st.CurrentMenuPage.ActiveMenuID
    (GetMenuItemNum st.CurrentMenuPage.General_MenuItems : Int) a2
    hN1 hN2 ha1 ha2 hb1 hb2

theorem windowDataAdjust_keeps (rawInc : Int) (st : UIState) :
    (windowDataAdjust rawInc st).OLED_UI_Key = st.OLED_UI_Key ∧
    (windowDataAdjust rawInc st).OLED_UI_LastKey = st.OLED_UI_LastKey ∧
    (windowDataAdjust rawInc st).KeyEnterFlag = st.KeyEnterFlag ∧
    (windowDataAdjust rawInc st).FadeOutFlag = st.FadeOutFlag ∧
    (windowDataAdjust rawInc st).EncoderEnabled = st.EncoderEnabled ∧
    (windowDataAdjust rawInc st).SustainFlag = st.SustainFlag ∧
    (windowDataAdjust rawInc st).SustainCount = st.SustainCount ∧
    (windowDataAdjust rawInc st).CurrentMenuPage = st.CurrentMenuPage ∧
    ((windowDataAdjust rawInc st).CurrentWindow.map MenuWindow.ContinueTime50
      = st.CurrentWindow.map MenuWindow.ContinueTime50) := by
  cases hw : st.CurrentWindow with
  | none => simp [windowDataAdjust, hw]
  | some w =>
    cases hd : w.Prob_Data_Int with
    | none => simp [windowDataAdjust, hw, hd]
    | some v => simp [windowDataAdjust, hw, hd]

theorem BackEventMenuItem_keeps (st : UIState) :
    (BackEventMenuItem st).OLED_UI_Key = st.OLED_UI_Key ∧
    (BackEventMenuItem st).OLED_UI_LastKey = st.OLED_UI_LastKey ∧
    (BackEventMenuItem st).KeyEnterFlag = st.KeyEnterFlag ∧
    (BackEventMenuItem st).SustainFlag = st.SustainFlag ∧
    (BackEventMenuItem st).SustainCount = st.SustainCount ∧
    (BackEventMenuItem st).CurrentWindow = st.CurrentWindow ∧
    (BackEventMenuItem st).CurrentMenuPage = st.CurrentMenuPage := by
  by_cases hp : st.CurrentMenuPage.General_ParentMenuPage <;>
    simp [BackEventMenuItem, SetFadeOutFlag, Encoder_Disable, hp]

theorem EnterEventMenuItem_keeps (st : UIState) :
    (EnterEventMenuItem st).OLED_UI_Key = st.OLED_UI_Key ∧
    (EnterEventMenuItem st).OLED_UI_LastKey = st.OLED_UI_LastKey ∧
    (EnterEventMenuItem st).SustainFlag = st.SustainFlag ∧
    (EnterEventMenuItem st).SustainCount = st.SustainCount ∧
    (EnterEventMenuItem st).CurrentWindow = st.CurrentWindow ∧
    (EnterEventMenuItem st).CurrentMenuPage = st.CurrentMenuPage := by
  by_cases h1 : (currentItem st.CurrentMenuPage).General_callback = true
      ∧ (currentItem st.CurrentMenuPage).General_SubMenuPage = false <;>
  by_cases h2 : (currentItem st.CurrentMenuPage).General_SubMenuPage = true
      ∧ (currentItem st.CurrentMenuPage).General_callback = false <;>
  simp [EnterEventMenuItem, SetEnterFlag, SetFadeOutFlag, Encoder_Disable, h1, h2]

theorem ToggleActiveRadio_keeps (st : UIState) :
    (ToggleActiveRadio st).OLED_UI_Key = st.OLED_UI_Key ∧
    (ToggleActiveRadio st).OLED_UI_LastKey = st.OLED_UI_LastKey ∧
    (ToggleActiveRadio st).KeyEnterFlag = st.KeyEnterFlag ∧
    (ToggleActiveRadio st).FadeOutFlag = st.FadeOutFlag ∧
    (ToggleActiveRadio st).EncoderEnabled = st.EncoderEnabled ∧
    (ToggleActiveRadio st).SustainFlag = st.SustainFlag ∧
    (ToggleActiveRadio st).SustainCount = st.SustainCount ∧
    (ToggleActiveRadio st).CurrentWindow = st.CurrentWindow ∧
    (ToggleActiveRadio st).CurrentMenuPage.ActiveMenuID
      = st.CurrentMenuPage.ActiveMenuID := by
  cases hr : (currentItem st.CurrentMenuPage).List_BoolRadioBox with
  | none => simp [ToggleActiveRadio, hr]
  | some b => simp [ToggleActiveRadio, hr]

theorem applySafeInc_zero (maxSlot : Int) (st : UIState) :
    applySafeInc 0 maxSlot st = st := by
  simp [applySafeInc]

theorem windowDataAdjust_page (rawInc : Int) (st : UIState) :
    (windowDataAdjust rawInc st).CurrentMenuPage = st.CurrentMenuPage :=
  (windowDataAdjust_keeps rawInc st).2.2.2.2.2.2.2.1

theorem windowDataAdjust_SustainFlag (rawInc : Int) (st : UIState) :
    (windowDataAdjust rawInc st).SustainFlag = st.SustainFlag :=
  (windowDataAdjust_keeps rawInc st).2.2.2.2.2.1

theorem windowDataAdjust_SustainCount (rawInc : Int) (st : UIState) :
    (windowDataAdjust rawInc st).SustainCount = st.SustainCount :=
  (windowDataAdjust_keeps rawInc st).2.2.2.2.2.2.1

theorem windowDataAdjust_Key (rawInc : Int) (st : UIState) :
    (windowDataAdjust rawInc st).OLED_UI_Key = st.OLED_UI_Key :=
  (windowDataAdjust_keeps rawInc st).1

theorem windowDataAdjust_LastKey (rawInc : Int) (st : UIState) :
    (windowDataAdjust rawInc st).OLED_UI_LastKey = st.OLED_UI_LastKey :=
  (windowDataAdjust_keeps rawInc st).2.1

theorem windowDataAdjust_KeyEnterFlag (rawInc : Int) (st : UIState) :
    (windowDataAdjust rawInc st).KeyEnterFlag = st.KeyEnterFlag :=
  (windowDataAdjust_keeps rawInc st).2.2.1

theorem windowDataAdjust_FadeOutFlag (rawInc : Int) (st : UIState) :
    (windowDataAdjust rawInc st).FadeOutFlag = st.FadeOutFlag :=
  (windowDataAdjust_keeps rawInc st).2.2.2.1

theorem windowDataAdjust_EncoderEnabled (rawInc : Int) (st : UIState) :
    (windowDataAdjust rawInc st).EncoderEnabled = st.EncoderEnabled :=
  (windowDataAdjust_keeps rawInc st).2.2.2.2.1

theorem windowDataAdjust_ContinueTime50 (rawInc : Int) (st : UIState) :
    (windowDataAdjust rawInc st).CurrentWindow.map MenuWindow.ContinueTime50
      = st.CurrentWindow.map MenuWindow.ContinueTime50 :=
  (windowDataAdjust_keeps rawInc st).2.2.2.2.2.2.2.2

theorem applySafeInc_Key (d maxSlot : Int) (st : UIState) :
    (applySafeInc d maxSlot st).OLED_UI_Key = st.OLED_UI_Key :=
  (applySafeInc_keeps d maxSlot st).1

theorem applySafeInc_LastKey (d maxSlot : Int) (st : UIState) :
    (applySafeInc d maxSlot st).OLED_UI_LastKey = st.OLED_UI_LastKey :=
  (applySafeInc_keeps d maxSlot st).2.1

theorem applySafeInc_KeyEnterFlag (d maxSlot : Int) (st : UIState) :
    (applySafeInc d maxSlot st).KeyEnterFlag = st.KeyEnterFlag :=
  (applySafeInc_keeps d maxSlot st).2.2.1

theorem applySafeInc_FadeOutFlag (d maxSlot : Int) (st : UIState) :
    (applySafeInc d maxSlot st).FadeOutFlag = st.FadeOutFlag :=
  (applySafeInc_keeps d maxSlot st).2.2.2.1

theorem applySafeInc_EncoderEnabled (d maxSlot : Int) (st : UIState) :
    (applySafeInc d maxSlot st).EncoderEnabled = st.EncoderEnabled :=
  (applySafeInc_keeps d maxSlot st).2.2.2.2.1

theorem applySafeInc_SustainFlag (d maxSlot : Int) (st : UIState) :
    (applySafeInc d maxSlot st).SustainFlag = st.SustainFlag :=
  (applySafeInc_keeps d maxSlot st).2.2.2.2.2.1

theorem applySafeInc_SustainCount (d maxSlot : Int) (st : UIState) :
    (applySafeInc d maxSlot st).SustainCount = st.SustainCount :=
  (applySafeInc_keeps d maxSlot st).2.2.2.2.2.2.1

theorem applySafeInc_CurrentWindow (d maxSlot : Int) (st : UIState) :
    (applySafeInc d maxSlot st).CurrentWindow = st.CurrentWindow :=
  (applySafeInc_keeps d maxSlot st).2.2.2.2.2.2.2.1

theorem applySafeInc_items (d maxSlot : Int) (st : UIState) :
    (applySafeInc d maxSlot st).CurrentMenuPage.General_MenuItems
      = st.CurrentMenuPage.General_MenuItems :=
  (applySafeInc_keeps d maxSlot st).2.2.2.2.2.2.2.2.2

theorem BackEventMenuItem_Key (st : UIState) :
    (BackEventMenuItem st).OLED_UI_Key = st.OLED_UI_Key :=
  (BackEventMenuItem_keeps st).1

theorem BackEventMenuItem_LastKey (st : UIState) :
    (BackEventMenuItem st).OLED_UI_LastKey = st.OLED_UI_LastKey :=
  (BackEventMenuItem_keeps st).2.1

theorem BackEventMenuItem_KeyEnterFlag (st : UIState) :
    (BackEventMenuItem st).KeyEnterFlag = st.KeyEnterFlag :=
  (BackEventMenuItem_keeps st).2.2.1

theorem BackEventMenuItem_SustainFlag (st : UIState) :
    (BackEventMenuItem st).SustainFlag = st.SustainFlag :=
  (BackEventMenuItem_keeps st).2.2.2.1

theorem BackEventMenuItem_SustainCount (st : UIState) :
    (BackEventMenuItem st).SustainCount = st.SustainCount :=
  (BackEventMenuItem_keeps st).2.2.2.2.1

theorem BackEventMenuItem_CurrentWindow (st : UIState) :
    (BackEventMenuItem st).CurrentWindow = st.CurrentWindow :=
  (BackEventMenuItem_keeps st).2.2.2.2.2.1

theorem BackEventMenuItem_page (st : UIState) :
    (BackEventMenuItem st).CurrentMenuPage = st.CurrentMenuPage :=
  (BackEventMenuItem_keeps st).2.2.2.2.2.2

theorem EnterEventMenuItem_Key (st : UIState) :
    (EnterEventMenuItem st).OLED_UI_Key = st.OLED_UI_Key :=
  (EnterEventMenuItem_keeps st).1

theorem EnterEventMenuItem_LastKey (st : UIState) :
    (EnterEventMenuItem st).OLED_UI_LastKey = st.OLED_UI_LastKey :=
  (EnterEventMenuItem_keeps st).2.1

theorem EnterEventMenuItem_SustainFlag (st : UIState) :
    (EnterEventMenuItem st).SustainFlag = st.SustainFlag :=
  (EnterEventMenuItem_keeps st).2.2.1

theorem EnterEventMenuItem_SustainCount (st : UIState) :
    (EnterEventMenuItem st).SustainCount = st.SustainCount :=
  (EnterEventMenuItem_keeps st).2.2.2.1

theorem EnterEventMenuItem_CurrentWindow (st : UIState) :
    (EnterEventMenuItem st).CurrentWindow = st.CurrentWindow :=
  (EnterEventMenuItem_keeps st).2.2.2.2.1

theorem EnterEventMenuItem_page (st : UIState) :
    (EnterEventMenuItem st).CurrentMenuPage = st.CurrentMenuPage :=
  (EnterEventMenuItem_keeps st).2.2.2.2.2

theorem ToggleActiveRadio_Key (st : UIState) :
    (ToggleActiveRadio st).OLED_UI_Key = st.OLED_UI_Key :=
  (ToggleActiveRadio_keeps st).1

theorem ToggleActiveRadio_LastKey (st : UIState) :
    (ToggleActiveRadio st).OLED_UI_LastKey = st.OLED_UI_LastKey :=
  (ToggleActiveRadio_keeps st).2.1

theorem ToggleActiveRadio_KeyEnterFlag (st : UIState) :
    (ToggleActiveRadio st).KeyEnterFlag = st.KeyEnterFlag :=
  (ToggleActiveRadio_keeps st).2.2.1

theorem ToggleActiveRadio_FadeOutFlag (st : UIState) :
    (ToggleActiveRadio st).FadeOutFlag = st.FadeOutFlag :=
  (ToggleActiveRadio_keeps st).2.2.2.1

theorem ToggleActiveRadio_EncoderEnabled (st : UIState) :
    (ToggleActiveRadio st).EncoderEnabled = st.EncoderEnabled :=
  (ToggleActiveRadio_keeps st).2.2.2.2.1

theorem ToggleActiveRadio_SustainFlag (st : UIState) :
    (ToggleActiveRadio st).SustainFlag = st.SustainFlag :=
  (ToggleActiveRadio_keeps st).2.2.2.2.2.1

theorem ToggleActiveRadio_SustainCount (st : UIState) :
    (ToggleActiveRadio st).SustainCount = st.SustainCount :=
  (ToggleActiveRadio_keeps st).2.2.2.2.2.2.1

theorem ToggleActiveRadio_CurrentWindow (st : UIState) :
    (ToggleActiveRadio st).CurrentWindow = st.CurrentWindow :=
  (ToggleActiveRadio_keeps st).2.2.2.2.2.2.2.1

theorem ToggleActiveRadio_active (st : UIState) :
    (ToggleActiveRadio st).CurrentMenuPage.ActiveMenuID
      = st.CurrentMenuPage.ActiveMenuID :=
  (ToggleActiveRadio_keeps st).2.2.2.2.2.2.2.2

theorem sustainGate_false (inc0 : MenuID_Type) (st : UIState)
    (h : st.SustainFlag = false) : sustainGate inc0 st = (inc0, st) := by
  simp [sustainGate, h]

theorem sustainGate_SafeInc_zero (inc0 : MenuID_Type) (st : UIState)
    (h : st.SustainFlag = true) : (sustainGate inc0 st).1.SafeInc = 0 := by
  simp [sustainGate, h]

theorem sustainGate_keeps (inc0 : MenuID_Type) (st : UIState) :
    (sustainGate inc0 st).2.OLED_UI_Key = st.OLED_UI_Key ∧
    (sustainGate inc0 st).2.OLED_UI_LastKey = st.OLED_UI_LastKey ∧
    (sustainGate inc0 st).2.KeyEnterFlag = st.KeyEnterFlag ∧
    (sustainGate inc0 st).2.FadeOutFlag = st.FadeOutFlag ∧
    (sustainGate inc0 st).2.EncoderEnabled = st.EncoderEnabled ∧
    (sustainGate inc0 st).2.SustainFlag = st.SustainFlag ∧
    (sustainGate inc0 st).2.CurrentMenuPage = st.CurrentMenuPage ∧
    ((sustainGate inc0 st).2.CurrentWindow.map MenuWindow.ContinueTime50
      = st.CurrentWindow.map MenuWindow.ContinueTime50) := by
  by_cases h : st.SustainFlag = true
  · by_cases hr : inc0.RawInc ≠ 0 <;>
      simp [sustainGate, h, hr, windowDataAdjust_Key, windowDataAdjust_LastKey,
        windowDataAdjust_KeyEnterFlag, windowDataAdjust_FadeOutFlag,
        windowDataAdjust_EncoderEnabled, windowDataAdjust_SustainFlag,
        windowDataAdjust_page, windowDataAdjust_ContinueTime50]
  · simp [sustainGate, h]

theorem backDispatch_keeps (st : UIState) :
    (backDispatch st).OLED_UI_Key = st.OLED_UI_Key ∧
    (backDispatch st).OLED_UI_LastKey = st.OLED_UI_LastKey ∧
    (backDispatch st).KeyEnterFlag = st.KeyEnterFlag ∧
    (backDispatch st).SustainFlag = st.SustainFlag ∧
    (backDispatch st).CurrentWindow = st.CurrentWindow ∧
    (backDispatch st).CurrentMenuPage = st.CurrentMenuPage := by
  simp only [backDispatch]
  split
  · split
    · exact ⟨BackEventMenuItem_Key st, BackEventMenuItem_LastKey st,
        BackEventMenuItem_KeyEnterFlag st, BackEventMenuItem_SustainFlag st,
        BackEventMenuItem_CurrentWindow st, BackEventMenuItem_page st⟩
    · simp
  · simp

theorem enterDispatch_keeps (st : UIState) :
    (enterDispatch st).OLED_UI_Key = st.OLED_UI_Key ∧
    (enterDispatch st).OLED_UI_LastKey = st.OLED_UI_LastKey ∧
    (enterDispatch st).SustainFlag = st.SustainFlag ∧
    (enterDispatch st).CurrentWindow = st.CurrentWindow ∧
    (enterDispatch st).CurrentMenuPage.ActiveMenuID
      = st.CurrentMenuPage.ActiveMenuID := by
  simp only [enterDispatch]
  split
  · split
    · refine ⟨?_, ?_, ?_, ?_, ?_⟩
      · rw [ToggleActiveRadio_Key, EnterEventMenuItem_Key]
      · rw [ToggleActiveRadio_LastKey, EnterEventMenuItem_LastKey]
      · rw [ToggleActiveRadio_SustainFlag, EnterEventMenuItem_SustainFlag]
      · rw [ToggleActiveRadio_CurrentWindow, EnterEventMenuItem_CurrentWindow]
      · rw [ToggleActiveRadio_active, EnterEventMenuItem_page]
    · simp
  · simp

theorem sustainCountPhase_keeps (st : UIState) :
    (sustainCountPhase st).OLED_UI_Key = st.OLED_UI_Key ∧
    (sustainCountPhase st).OLED_UI_LastKey = st.OLED_UI_LastKey ∧
    (sustainCountPhase st).KeyEnterFlag = st.KeyEnterFlag ∧
    (sustainCountPhase st).FadeOutFlag = st.FadeOutFlag ∧
    (sustainCountPhase st).EncoderEnabled = st.EncoderEnabled ∧
    (sustainCountPhase st).CurrentWindow = st.CurrentWindow ∧
    (sustainCountPhase st).CurrentMenuPage = st.CurrentMenuPage := by
  by_cases h : st.SustainFlag = true <;>
    cases hw : st.CurrentWindow <;>
      simp [sustainCountPhase, h, hw] <;> split <;> simp [hw]

theorem handler_guard_true (raw : OLED_Key) (enc maxSlot : Int) (st : UIState)
    (h1 : st.KeyEnterFlag = MutexFlag.FLAGEND)
    (h2 : st.FadeOutFlag = MutexFlag.FLAGEND) :
    OLED_UI_InterruptHandler raw enc maxSlot st
      = sustainCountPhase (enterDispatch (backDispatch (applySafeInc
          (sustainGate (OLED_KeyAndEncoderRecord raw enc st).1
            (OLED_KeyAndEncoderRecord raw enc st).2).1.SafeInc maxSlot
          (sustainGate (OLED_KeyAndEncoderRecord raw enc st).1
            (OLED_KeyAndEncoderRecord raw enc st).2).2))) := by
  simp [OLED_UI_InterruptHandler, GetEnterFlag, GetFadeoutFlag, h1, h2]

theorem handler_guard_false (raw : OLED_Key) (enc maxSlot : Int) (st : UIState)
    (h : ¬ (st.KeyEnterFlag = MutexFlag.FLAGEND ∧ st.FadeOutFlag = MutexFlag.FLAGEND)) :
    OLED_UI_InterruptHandler raw enc maxSlot st = sustainCountPhase st := by
  have hg : (GetEnterFlag st && GetFadeoutFlag st) = false := by
    cases hK : st.KeyEnterFlag <;> cases hF : st.FadeOutFlag <;>
      simp_all [GetEnterFlag, GetFadeoutFlag]
  simp [OLED_UI_InterruptHandler, hg]

theorem wrap16_zero : wrap16 0 = 0 := by decide

theorem handler_active_formula (raw : OLED_Key) (enc maxSlot : Int) (st : UIState)
    (h1 : st.KeyEnterFlag = MutexFlag.FLAGEND)
    (h2 : st.FadeOutFlag = MutexFlag.FLAGEND)
    (hsus : st.SustainFlag = false)
    (hb1 : -32768 ≤ st.CurrentMenuPage.ActiveMenuID)
    (hb2 : st.CurrentMenuPage.ActiveMenuID ≤ 32767)
    (hb3 : -32768 ≤ st.CurrentMenuPage.ActiveMenuID
      + (OLED_KeyAndEncoderRecord raw enc st).1.SafeInc)
    (hb4 : st.CurrentMenuPage.ActiveMenuID
      + (OLED_KeyAndEncoderRecord raw enc st).1.SafeInc ≤ 32767) :
    (OLED_UI_InterruptHandler raw enc maxSlot st).CurrentMenuPage.ActiveMenuID
      = st.CurrentMenuPage.ActiveMenuID
        + (OLED_KeyAndEncoderRecord raw enc st).1.SafeInc := by
  rw [handler_guard_true raw enc maxSlot st h1 h2, record_state]
  rw [(sustainCountPhase_keeps _).2.2.2.2.2.2]
  rw [(enterDispatch_keeps _).2.2.2.2]
  rw [(backDispatch_keeps _).2.2.2.2.2]
  rw [sustainGate_false _ _ (by simpa using hsus)]
  rw [applySafeInc_active _ maxSlot _ (by simpa using hb1) (by simpa using hb2)
    (by simpa using hb3) (by simpa using hb4)]

theorem handler_active_sustain (raw : OLED_Key) (enc maxSlot : Int) (st : UIState)
    (h1 : st.KeyEnterFlag = MutexFlag.FLAGEND)
    (h2 : st.FadeOutFlag = MutexFlag.FLAGEND)
    (hsus : st.SustainFlag = true) :
    (OLED_UI_InterruptHandler raw enc maxSlot st).CurrentMenuPage.ActiveMenuID
      = st.CurrentMenuPage.ActiveMenuID := by
  rw [handler_guard_true raw enc maxSlot st h1 h2, record_state]
  rw [(sustainCountPhase_keeps _).2.2.2.2.2.2]
  rw [(enterDispatch_keeps _).2.2.2.2]
  rw [(backDispatch_keeps _).2.2.2.2.2]
  rw [sustainGate_SafeInc_zero _ _ (by simpa using hsus), applySafeInc_zero]
  rw [(sustainGate_keeps _ _).2.2.2.2.2.2.1]

theorem handler_page_mutex (raw : OLED_Key) (enc maxSlot : Int) (st : UIState)
    (h : ¬ (st.KeyEnterFlag = MutexFlag.FLAGEND ∧ st.FadeOutFlag = MutexFlag.FLAGEND)) :
    (OLED_UI_InterruptHandler raw enc maxSlot st).CurrentMenuPage
      = st.CurrentMenuPage := by
  rw [handler_guard_false raw enc maxSlot st h]
  exact (sustainCountPhase_keeps st).2.2.2.2.2.2

/-! ## Claim C6: active index invariant and wrapping -/

/-- C6: for every page whose item list holds N items before the sentinel
(1 ≤ N ≤ 32767), one interrupt tick keeps _ActiveMenuID inside [0, N-1]
whatever the key reading, encoder delta and mutex or window state; a Down
release edge from index N-1 wraps the active index to 0, and an Up release
edge from index 0 wraps it to N-1. -/
theorem C6_active_index :
    (∀ (raw : OLED_Key) (enc maxSlot : Int) (st : UIState),
      1 ≤ (GetMenuItemNum st.CurrentMenuPage.General_MenuItems : Int) →
      (GetMenuItemNum st.CurrentMenuPage.General_MenuItems : Int) ≤ 32767 →
      0 ≤ st.CurrentMenuPage.ActiveMenuID →
      st.CurrentMenuPage.ActiveMenuID
        ≤ (GetMenuItemNum st.CurrentMenuPage.General_MenuItems : Int) - 1 →
      0 ≤ (OLED_UI_InterruptHandler raw enc maxSlot st).CurrentMenuPage.ActiveMenuID ∧
      (OLED_UI_InterruptHandler raw enc maxSlot st).CurrentMenuPage.ActiveMenuID
        ≤ (GetMenuItemNum st.CurrentMenuPage.General_MenuItems : Int) - 1) ∧
    (∀ (raw : OLED_Key) (maxSlot : Int) (st : UIState),
      st.KeyEnterFlag = MutexFlag.FLAGEND → st.FadeOutFlag = MutexFlag.FLAGEND →
      st.SustainFlag = false →
      raw.Down = true → st.OLED_UI_Key.Down = false →
      raw.Up = st.OLED_UI_Key.Up →
      1 ≤ (GetMenuItemNum st.CurrentMenuPage.General_MenuItems : Int) →
      (GetMenuItemNum st.CurrentMenuPage.General_MenuItems : Int) ≤ 32767 →
      st.CurrentMenuPage.ActiveMenuID
        = (GetMenuItemNum st.CurrentMenuPage.General_MenuItems : Int) - 1 →
      (OLED_UI_InterruptHandler raw 0 maxSlot st).CurrentMenuPage.ActiveMenuID = 0) ∧
    (∀ (raw : OLED_Key) (maxSlot : Int) (st : UIState),
      st.KeyEnterFlag = MutexFlag.FLAGEND → st.FadeOutFlag = MutexFlag.FLAGEND →
      st.SustainFlag = false →
      raw.Up = true → st.OLED_UI_Key.Up = false →
      raw.Down = st.OLED_UI_Key.Down →
      1 ≤ (GetMenuItemNum st.CurrentMenuPage.General_MenuItems : Int) →
      (GetMenuItemNum st.CurrentMenuPage.General_MenuItems : Int) ≤ 32767 →
      st.CurrentMenuPage.ActiveMenuID = 0 →
      (OLED_UI_InterruptHandler raw 0 maxSlot st).CurrentMenuPage.ActiveMenuID
        = (GetMenuItemNum st.CurrentMenuPage.General_MenuItems : Int) - 1) := by
  refine ⟨?_, ?_, ?_⟩
  · intro raw enc maxSlot st hN1 hN2 ha1 ha2
    by_cases hmx : st.KeyEnterFlag = MutexFlag.FLAGEND ∧ st.FadeOutFlag = MutexFlag.FLAGEND
    · by_cases hsus : st.SustainFlag = true
      · rw [handler_active_sustain raw enc maxSlot st hmx.1 hmx.2 hsus]
        exact ⟨ha1, ha2⟩
      · obtain ⟨hs1, hs2⟩ := record_SafeInc_spec raw enc st hN1 hN2 ha1 ha2
        rw [handler_active_formula raw enc maxSlot st hmx.1 hmx.2
          (by simpa using hsus) (by omega) (by omega) (by omega) (by omega)]
        exact ⟨hs1, hs2⟩
    · rw [handler_page_mutex raw enc maxSlot st hmx]
      exact ⟨ha1, ha2⟩
  · intro raw maxSlot st hm1 hm2 hsus hrd hkd hru hN1 hN2 hact
    have hsafe : (OLED_KeyAndEncoderRecord raw 0 st).1.SafeInc
        = -st.CurrentMenuPage.ActiveMenuID := by
      rw [record_SafeInc_eq]
      rw [wrap16_zero]
      simp only [hru, hrd, hkd, ne_eq, not_true_eq_false, false_and, if_false,
        Bool.true_eq_false, not_false_eq_true, true_and, if_true, add_zero]
      rw [hact]
      have hw1 : wrap16 ((GetMenuItemNum st.CurrentMenuPage.General_MenuItems : Int) - 1)
          = (GetMenuItemNum st.CurrentMenuPage.General_MenuItems : Int) - 1 :=
        wrap16_eq_self (by omega) (by omega)
      rw [hw1]
      have he : (GetMenuItemNum st.CurrentMenuPage.General_MenuItems : Int) - 1 + 1
          = (GetMenuItemNum st.CurrentMenuPage.General_MenuItems : Int) := by ring
      rw [he]
      have hw2 : wrap16 (GetMenuItemNum st.CurrentMenuPage.General_MenuItems : Int)
          = (GetMenuItemNum st.CurrentMenuPage.General_MenuItems : Int) :=
        wrap16_eq_self (by omega) (by omega)
      rw [hw2]
      rw [if_pos (by omega :
        (GetMenuItemNum st.CurrentMenuPage.General_MenuItems : Int) - 1
          < (GetMenuItemNum st.CurrentMenuPage.General_MenuItems : Int))]
      rw [zero_sub]
      exact wrap16_eq_self (by omega) (by omega)
    rw [handler_active_formula raw 0 maxSlot st hm1 hm2 hsus
      (by omega) (by omega) (by rw [hsafe]; omega) (by rw [hsafe]; omega)]
    rw [hsafe]
    ring
  · intro raw maxSlot st hm1 hm2 hsus hru hku hrd hN1 hN2 hact
    have hsafe : (OLED_KeyAndEncoderRecord raw 0 st).1.SafeInc
        = (GetMenuItemNum st.CurrentMenuPage.General_MenuItems : Int) - 1 := by
      rw [record_SafeInc_eq]
      rw [wrap16_zero]
      simp only [hru, hrd, hku, ne_eq, not_true_eq_false, false_and, if_false,
        Bool.true_eq_false, not_false_eq_true, true_and, if_true, add_zero]
      rw [hact]
      have hw0 : wrap16 (0 : Int) = 0 := by decide
      rw [hw0]
      have hwm1 : wrap16 ((0 : Int) - 1) = -1 := by decide
      rw [hwm1]
      rw [if_neg (by omega :
        ¬ (GetMenuItemNum st.CurrentMenuPage.General_MenuItems : Int) - 1 < -1)]
      rw [if_pos (by omega : (-1 : Int) < 0)]
      have hw1 : wrap16 ((GetMenuItemNum st.CurrentMenuPage.General_MenuItems : Int) - 1)
          = (GetMenuItemNum st.CurrentMenuPage.General_MenuItems : Int) - 1 :=
        wrap16_eq_self (by omega) (by omega)
      rw [hw1, sub_zero]
      exact hw1
    rw [handler_active_formula raw 0 maxSlot st hm1 hm2 hsus
      (by omega) (by omega) (by rw [hsafe]; omega) (by rw [hsafe]; omega)]
    rw [hsafe, hact]
    ring

/-! ## Claim C4: window sustain and the enter/back key roles -/

theorem windowDataAdjust_nodata (rawInc : Int) (st : UIState) (w : MenuWindow)
    (hw : st.CurrentWindow = some w) (hd : w.Prob_Data_Int = none) :
    windowDataAdjust rawInc st = st := by
  simp [windowDataAdjust, hw, hd]

theorem sustainGate_nodata (inc0 : MenuID_Type) (st : UIState) (w : MenuWindow)
    (hsus : st.SustainFlag = true) (hw : st.CurrentWindow = some w)
    (hd : w.Prob_Data_Int = none) :
    sustainGate inc0 st
      = ({ inc0 with SafeInc := 0 },
         if inc0.RawInc ≠ 0 then { st with SustainCount := 0 } else st) := by
  simp only [sustainGate, hsus, if_true]
  by_cases hri : inc0.RawInc ≠ 0
  · rw [if_pos hri, windowDataAdjust_nodata _ _ w (by simpa using hw) hd]
  · rw [if_neg hri, windowDataAdjust_nodata _ _ w hw hd]

theorem backDispatch_noedge (st : UIState)
    (h : ¬ (st.OLED_UI_Key.Back ≠ st.OLED_UI_LastKey.Back ∧ st.OLED_UI_Key.Back = true)) :
    backDispatch st = st := by
  simp only [backDispatch, if_neg h]

theorem backDispatch_edge_window (st : UIState) (w : MenuWindow)
    (hedge : st.OLED_UI_Key.Back ≠ st.OLED_UI_LastKey.Back ∧ st.OLED_UI_Key.Back = true)
    (hsus : st.SustainFlag = true) (hw : st.CurrentWindow = some w) :
    backDispatch st = { st with SustainCount := w.ContinueTime50 } := by
  simp only [backDispatch]
  rw [if_pos hedge, if_neg (by simp [hsus] : ¬ st.SustainFlag = false), hw]

theorem enterDispatch_noedge (st : UIState)
    (h : ¬ (st.OLED_UI_Key.Enter ≠ st.OLED_UI_LastKey.Enter ∧ st.OLED_UI_Key.Enter = true)) :
    enterDispatch st = st := by
  simp only [enterDispatch, if_neg h]

theorem enterDispatch_edge_window (st : UIState)
    (hedge : st.OLED_UI_Key.Enter ≠ st.OLED_UI_LastKey.Enter ∧ st.OLED_UI_Key.Enter = true)
    (hsus : st.SustainFlag = true) :
    enterDispatch st = { st with SustainCount := 0 } := by
  simp only [enterDispatch]
  rw [if_pos hedge, if_neg (by simp [hsus] : ¬ st.SustainFlag = false)]

theorem sustainCountPhase_spec (st : UIState) (w : MenuWindow)
    (hs : st.SustainFlag = true) (hw : st.CurrentWindow = some w) :
    sustainCountPhase st
      = (if w.ContinueTime50 ≤ wrap16 (st.SustainCount + 1)
         then { st with SustainFlag := false, SustainCount := 0 }
         else { st with SustainCount := wrap16 (st.SustainCount + 1) }) := by
  simp only [sustainCountPhase, hs, if_true]
  have hw1 : ({ st with SustainCount := wrap16 (st.SustainCount + 1) } :
      UIState).CurrentWindow = some w := hw
  rw [hw1]

theorem handler_window_tick (raw : OLED_Key) (enc maxSlot : Int) (st : UIState)
    (w : MenuWindow)
    (hm1 : st.KeyEnterFlag = MutexFlag.FLAGEND)
    (hm2 : st.FadeOutFlag = MutexFlag.FLAGEND)
    (hsus : st.SustainFlag = true)
    (hw : st.CurrentWindow = some w) (hd : w.Prob_Data_Int = none) :
    OLED_UI_InterruptHandler raw enc maxSlot st
      = sustainCountPhase (enterDispatch (backDispatch
          (if (OLED_KeyAndEncoderRecord raw enc st).1.RawInc ≠ 0
           then { st with OLED_UI_Key := raw, OLED_UI_LastKey := st.OLED_UI_Key,
                          SustainCount := 0 }
           else { st with OLED_UI_Key := raw, OLED_UI_LastKey := st.OLED_UI_Key }))) := by
  rw [handler_guard_true raw enc maxSlot st hm1 hm2, record_state]
  rw [sustainGate_nodata _ _ w (by simpa using hsus) (by simpa using hw) hd]
  simp only [applySafeInc_zero]

theorem record_RawInc_eq (raw : OLED_Key) (enc : Int) (st : UIState) :
    (OLED_KeyAndEncoderRecord raw enc st).1.RawInc
      = wrap16 ((if raw.Down ≠ st.OLED_UI_Key.Down ∧ raw.Down = true then
            wrap16 ((if raw.Up ≠ st.OLED_UI_Key.Up ∧ raw.Up = true then
                wrap16 (wrap16 (st.CurrentMenuPage.ActiveMenuID + wrap16 enc) - 1)
              else wrap16 (st.CurrentMenuPage.ActiveMenuID + wrap16 enc)) + 1)
          else (if raw.Up ≠ st.OLED_UI_Key.Up ∧ raw.Up = true then
              wrap16 (wrap16 (st.CurrentMenuPage.ActiveMenuID + wrap16 enc) - 1)
            else wrap16 (st.CurrentMenuPage.ActiveMenuID + wrap16 enc)))
          - st.CurrentMenuPage.ActiveMenuID) := rfl

theorem record_RawInc_quiescent (st : UIState)
    (hb1 : -32768 ≤ st.CurrentMenuPage.ActiveMenuID)
    (hb2 : st.CurrentMenuPage.ActiveMenuID ≤ 32767) :
    (OLED_KeyAndEncoderRecord st.OLED_UI_Key 0 st).1.RawInc = 0 := by
  rw [record_RawInc_eq, wrap16_zero]
  simp only [ne_eq, not_true_eq_false, false_and, if_false, add_zero]
  rw [wrap16_eq_self hb1 hb2, sub_self, wrap16_zero]

theorem quiescent_window_step (maxSlot : Int) (u : UIState) (w : MenuWindow)
    (hm1 : u.KeyEnterFlag = MutexFlag.FLAGEND)
    (hm2 : u.FadeOutFlag = MutexFlag.FLAGEND)
    (hsus : u.SustainFlag = true)
    (hw : u.CurrentWindow = some w) (hd : w.Prob_Data_Int = none)
    (hb1 : -32768 ≤ u.CurrentMenuPage.ActiveMenuID)
    (hb2 : u.CurrentMenuPage.ActiveMenuID ≤ 32767)
    (hc1 : -32768 ≤ u.SustainCount) (hc2 : u.SustainCount ≤ 32766) :
    quiescentTick maxSlot u
      = (if w.ContinueTime50 ≤ u.SustainCount + 1
         then { u with OLED_UI_LastKey := u.OLED_UI_Key,
                       SustainFlag := false, SustainCount := 0 }
         else { u with OLED_UI_LastKey := u.OLED_UI_Key,
                       SustainCount := u.SustainCount + 1 }) := by
  rw [quiescentTick]
  rw [handler_window_tick u.OLED_UI_Key 0 maxSlot u w hm1 hm2 hsus hw hd]
  rw [if_neg (by simp [record_RawInc_quiescent u hb1 hb2])]
  rw [backDispatch_noedge _ (by simp)]
  rw [enterDispatch_noedge _ (by simp)]
  rw [sustainCountPhase_spec _ w (by simpa using hsus) (by simpa using hw)]
  dsimp only
  rw [wrap16_eq_self (by omega) (by omega)]

theorem back_edge_closes (raw : OLED_Key) (enc maxSlot : Int) (st : UIState)
    (w : MenuWindow)
    (hm1 : st.KeyEnterFlag = MutexFlag.FLAGEND)
    (hm2 : st.FadeOutFlag = MutexFlag.FLAGEND)
    (hsus : st.SustainFlag = true)
    (hw : st.CurrentWindow = some w) (hd : w.Prob_Data_Int = none)
    (hbe : raw.Back = true) (hbl : st.OLED_UI_Key.Back = false)
    (hne : ¬ (raw.Enter ≠ st.OLED_UI_Key.Enter ∧ raw.Enter = true))
    (h1 : 0 ≤ w.ContinueTime50) (h2 : w.ContinueTime50 ≤ 32766) :
    (OLED_UI_InterruptHandler raw enc maxSlot st).SustainFlag = false
    ∧ (OLED_UI_InterruptHandler raw enc maxSlot st).SustainCount = 0 := by
  rw [handler_window_tick raw enc maxSlot st w hm1 hm2 hsus hw hd]
  by_cases hri : (OLED_KeyAndEncoderRecord raw enc st).1.RawInc ≠ 0
  · rw [if_pos hri]
    rw [backDispatch_edge_window _ w (by simp [hbe, hbl]) (by simpa using hsus)
        (by simpa using hw)]
    rw [enterDispatch_noedge _ (by simpa using hne)]
    rw [sustainCountPhase_spec _ w (by simpa using hsus) (by simpa using hw)]
    dsimp only
    rw [wrap16_eq_self (by omega) (by omega), if_pos (by omega)]
    exact ⟨rfl, rfl⟩
  · rw [if_neg hri]
    rw [backDispatch_edge_window _ w (by simp [hbe, hbl]) (by simpa using hsus)
        (by simpa using hw)]
    rw [enterDispatch_noedge _ (by simpa using hne)]
    rw [sustainCountPhase_spec _ w (by simpa using hsus) (by simpa using hw)]
    dsimp only
    rw [wrap16_eq_self (by omega) (by omega), if_pos (by omega)]
    exact ⟨rfl, rfl⟩

theorem enter_edge_restarts (raw : OLED_Key) (enc maxSlot : Int) (st : UIState)
    (w : MenuWindow)
    (hm1 : st.KeyEnterFlag = MutexFlag.FLAGEND)
    (hm2 : st.FadeOutFlag = MutexFlag.FLAGEND)
    (hsus : st.SustainFlag = true)
    (hw : st.CurrentWindow = some w) (hd : w.Prob_Data_Int = none)
    (hee : raw.Enter = true) (hel : st.OLED_UI_Key.Enter = false)
    (hnb : ¬ (raw.Back ≠ st.OLED_UI_Key.Back ∧ raw.Back = true))
    (h1 : 1 < w.ContinueTime50) :
    (OLED_UI_InterruptHandler raw enc maxSlot st).SustainFlag = true
    ∧ (OLED_UI_InterruptHandler raw enc maxSlot st).SustainCount = 1 := by
  rw [handler_window_tick raw enc maxSlot st w hm1 hm2 hsus hw hd]
  by_cases hri : (OLED_KeyAndEncoderRecord raw enc st).1.RawInc ≠ 0
  · rw [if_pos hri]
    rw [backDispatch_noedge _ (by simpa using hnb)]
    rw [enterDispatch_edge_window _ (by simp [hee, hel]) (by simpa using hsus)]
    rw [sustainCountPhase_spec _ w (by simpa using hsus) (by simpa using hw)]
    dsimp only
    rw [wrap16_eq_self (by omega) (by omega), if_neg (by omega)]
    exact ⟨hsus, by norm_num⟩
  · rw [if_neg hri]
    rw [backDispatch_noedge _ (by simpa using hnb)]
    rw [enterDispatch_edge_window _ (by simp [hee, hel]) (by simpa using hsus)]
    rw [sustainCountPhase_spec _ w (by simpa using hsus) (by simpa using hw)]
    dsimp only
    rw [wrap16_eq_self (by omega) (by omega), if_neg (by omega)]
    exact ⟨hsus, by norm_num⟩

theorem quiescent_iterate (maxSlot : Int) (u : UIState) (w : MenuWindow)
    (hm1 : u.KeyEnterFlag = MutexFlag.FLAGEND)
    (hm2 : u.FadeOutFlag = MutexFlag.FLAGEND)
    (hsus : u.SustainFlag = true)
    (hw : u.CurrentWindow = some w) (hd : w.Prob_Data_Int = none)
    (hb1 : -32768 ≤ u.CurrentMenuPage.ActiveMenuID)
    (hb2 : u.CurrentMenuPage.ActiveMenuID ≤ 32767)
    (hc0 : u.SustainCount = 0)
    (h2 : w.ContinueTime50 ≤ 32766) :
    ∀ k : Nat, (k : Int) < w.ContinueTime50 →
      ((quiescentTick maxSlot)^[k] u).KeyEnterFlag = MutexFlag.FLAGEND
      ∧ ((quiescentTick maxSlot)^[k] u).FadeOutFlag = MutexFlag.FLAGEND
      ∧ ((quiescentTick maxSlot)^[k] u).SustainFlag = true
      ∧ ((quiescentTick maxSlot)^[k] u).CurrentWindow = some w
      ∧ ((quiescentTick maxSlot)^[k] u).CurrentMenuPage = u.CurrentMenuPage
      ∧ ((quiescentTick maxSlot)^[k] u).SustainCount = (k : Int) := by
  intro k
  induction k with
  | zero =>
    intro _
    exact ⟨hm1, hm2, hsus, hw, rfl, by simpa using hc0⟩
  | succ n ih =>
    intro hlt
    have hn : (n : Int) < w.ContinueTime50 := by push_cast at hlt ⊢; omega
    obtain ⟨i1, i2, i3, i4, i5, i6⟩ := ih hn
    rw [Function.iterate_succ_apply']
    rw [quiescent_window_step maxSlot _ w i1 i2 i3 i4 hd
        (by rw [i5]; exact hb1) (by rw [i5]; exact hb2)
        (by rw [i6]; omega) (by rw [i6]; omega)]
    rw [i6, if_neg (by push_cast at hlt; omega)]
    exact ⟨i1, i2, i3, i4, i5, by push_cast; ring⟩

/-- C4: counterexample to the claimed key roles.  With the window visible at
sustain count 5 of 100, an Enter release edge leaves the window open
(SustainFlag stays true, the counter restarts at 1), while a Back release
edge closes it on that very tick (SustainFlag false, counter 0) instead of
waiting for the natural continue time. -/
theorem C4_counterexample :
    ((OLED_UI_InterruptHandler rawAllReleased 0 3 stWindowEnterHeld).SustainFlag = true
      ∧ (OLED_UI_InterruptHandler rawAllReleased 0 3 stWindowEnterHeld).SustainCount = 1)
    ∧ ((OLED_UI_InterruptHandler rawAllReleased 0 3 stWindowBackHeld).SustainFlag = false
      ∧ (OLED_UI_InterruptHandler rawAllReleased 0 3 stWindowBackHeld).SustainCount = 0) := by
  decide

/-- C4 (amended): while a modal window is visible the key roles are the
opposite of the claim.  (1) A Back release edge closes the window on the same
interrupt tick: the dispatch sets the sustain counter to the continue-time
threshold, so the counting phase of that tick clears the flag.  (2) An Enter
release edge keeps the window open and restarts its sustain counter at 1.
(3) On a quiescent tick the counter increments and the window-active flag
clears exactly when counter + 1 reaches the threshold ContinueTime50.
(4) Hence from a freshly shown window (counter 0) under quiescent ticks the
flag stays true for every tick before the threshold and is cleared, with the
counter reset to 0, exactly at tick ContinueTime50. -/
theorem C4_window_sustain :
    (∀ (raw : OLED_Key) (enc maxSlot : Int) (st : UIState) (w : MenuWindow),
      st.KeyEnterFlag = MutexFlag.FLAGEND → st.FadeOutFlag = MutexFlag.FLAGEND →
      st.SustainFlag = true → st.CurrentWindow = some w → w.Prob_Data_Int = none →
      raw.Back = true → st.OLED_UI_Key.Back = false →
      ¬ (raw.Enter ≠ st.OLED_UI_Key.Enter ∧ raw.Enter = true) →
      0 ≤ w.ContinueTime50 → w.ContinueTime50 ≤ 32766 →
      (OLED_UI_InterruptHandler raw enc maxSlot st).SustainFlag = false
      ∧ (OLED_UI_InterruptHandler raw enc maxSlot st).SustainCount = 0)
    ∧ (∀ (raw : OLED_Key) (enc maxSlot : Int) (st : UIState) (w : MenuWindow),
      st.KeyEnterFlag = MutexFlag.FLAGEND → st.FadeOutFlag = MutexFlag.FLAGEND →
      st.SustainFlag = true → st.CurrentWindow = some w → w.Prob_Data_Int = none →
      raw.Enter = true → st.OLED_UI_Key.Enter = false →
      ¬ (raw.Back ≠ st.OLED_UI_Key.Back ∧ raw.Back = true) →
      1 < w.ContinueTime50 →
      (OLED_UI_InterruptHandler raw enc maxSlot st).SustainFlag = true
      ∧ (OLED_UI_InterruptHandler raw enc maxSlot st).SustainCount = 1)
    ∧ (∀ (maxSlot : Int) (u : UIState) (w : MenuWindow),
      u.KeyEnterFlag = MutexFlag.FLAGEND → u.FadeOutFlag = MutexFlag.FLAGEND →
      u.SustainFlag = true → u.CurrentWindow = some w → w.Prob_Data_Int = none →
      -32768 ≤ u.CurrentMenuPage.ActiveMenuID → u.CurrentMenuPage.ActiveMenuID ≤ 32767 →
      -32768 ≤ u.SustainCount → u.SustainCount ≤ 32766 →
      quiescentTick maxSlot u
        = (if w.ContinueTime50 ≤ u.SustainCount + 1
           then { u with OLED_UI_LastKey := u.OLED_UI_Key,
                         SustainFlag := false, SustainCount := 0 }
           else { u with OLED_UI_LastKey := u.OLED_UI_Key,
                         SustainCount := u.SustainCount + 1 }))
    ∧ (∀ (maxSlot : Int) (u : UIState) (w : MenuWindow),
      u.KeyEnterFlag = MutexFlag.FLAGEND → u.FadeOutFlag = MutexFlag.FLAGEND →
      u.SustainFlag = true → u.CurrentWindow = some w → w.Prob_Data_Int = none →
      -32768 ≤ u.CurrentMenuPage.ActiveMenuID → u.CurrentMenuPage.ActiveMenuID ≤ 32767 →
      u.SustainCount = 0 → 1 ≤ w.ContinueTime50 → w.ContinueTime50 ≤ 32766 →
      (∀ k : Nat, (k : Int) < w.ContinueTime50 →
        ((quiescentTick maxSlot)^[k] u).SustainFlag = true)
      ∧ ((quiescentTick maxSlot)^[w.ContinueTime50.toNat] u).SustainFlag = false
      ∧ ((quiescentTick maxSlot)^[w.ContinueTime50.toNat] u).SustainCount = 0) := by
  refine ⟨?_, ?_, ?_, ?_⟩
  · intro raw enc maxSlot st w hm1 hm2 hsus hw hd hbe hbl hne h1 h2
    exact back_edge_closes raw enc maxSlot st w hm1 hm2 hsus hw hd hbe hbl hne h1 h2
  · intro raw enc maxSlot st w hm1 hm2 hsus hw hd hee hel hnb h1
    exact enter_edge_restarts raw enc maxSlot st w hm1 hm2 hsus hw hd hee hel hnb h1
  · intro maxSlot u w hm1 hm2 hsus hw hd hb1 hb2 hc1 hc2
    exact quiescent_window_step maxSlot u w hm1 hm2 hsus hw hd hb1 hb2 hc1 hc2
  · intro maxSlot u w hm1 hm2 hsus hw hd hb1 hb2 hc0 h1 h2
    have hiter := quiescent_iterate maxSlot u w hm1 hm2 hsus hw hd hb1 hb2 hc0 h2
    refine ⟨fun k hk => (hiter k hk).2.2.1, ?_⟩
    have hsplit : w.ContinueTime50.toNat = (w.ContinueTime50.toNat - 1) + 1 := by omega
    obtain ⟨i1, i2, i3, i4, i5, i6⟩ := hiter (w.ContinueTime50.toNat - 1) (by omega)
    rw [hsplit, Function.iterate_succ_apply']
    rw [quiescent_window_step maxSlot _ w i1 i2 i3 i4 hd
        (by rw [i5]; exact hb1) (by rw [i5]; exact hb2)
        (by rw [i6]; omega) (by rw [i6]; omega)]
    rw [i6, if_pos (by omega)]
    exact ⟨rfl, rfl⟩

/-- Witness for C4_window_sustain: every hypothesis holds at the concrete
states, and the conclusions evaluate as stated. -/
theorem C4_window_sustain_witness :
    ((0 : Int) ≤ demoWindow.ContinueTime50 ∧ demoWindow.ContinueTime50 ≤ 32766)
    ∧ ((OLED_UI_InterruptHandler rawAllReleased 0 3 stWindowBackHeld).SustainFlag = false
       ∧ (OLED_UI_InterruptHandler rawAllReleased 0 3 stWindowBackHeld).SustainCount = 0)
    ∧ ((OLED_UI_InterruptHandler rawAllReleased 0 3 stWindowEnterHeld).SustainFlag = true
       ∧ (OLED_UI_InterruptHandler rawAllReleased 0 3 stWindowEnterHeld).SustainCount = 1)
    ∧ (((quiescentTick 3)^[100] stWindowQuiet).SustainFlag = false
       ∧ ((quiescentTick 3)^[100] stWindowQuiet).SustainCount = 0) :=
  ⟨by decide,
   C4_window_sustain.1 rawAllReleased 0 3 stWindowBackHeld demoWindow rfl rfl rfl rfl rfl
     rfl rfl (by decide) (by decide) (by decide),
   C4_window_sustain.2.1 rawAllReleased 0 3 stWindowEnterHeld demoWindow rfl rfl rfl rfl rfl
     rfl rfl (by decide) (by decide),
   (C4_window_sustain.2.2.2 3 stWindowQuiet demoWindow rfl rfl rfl rfl rfl
     (by decide) (by decide) rfl (by decide) (by decide)).2⟩

/-! ## Claims C9 and C10: mutex gating and the radio toggle -/

/-- C9: counterexample to "key scanning state is still updated".  With the
callback mutex raised, a tick that reads the Up key pressed leaves the whole
state unchanged: the new reading is not recorded into OLED_UI_Key, so the
edge is lost. -/
theorem C9_counterexample :
    OLED_UI_InterruptHandler rawUpPressed 0 3 stCallbackRunning = stCallbackRunning
    ∧ ¬ stCallbackRunning.OLED_UI_Key = rawUpPressed := by
  decide

/-- C9 (amended): while either mutex flag is off FLAGEND the interrupt tick
degenerates to the sustain counting phase alone, so no menu action is
dispatched but also no key reading is recorded (keys, flags, page and the
encoder-enable state are all left untouched); raising either flag disables
the encoder at the hardware level, and the foreground routines that clear a
flag (RunCurrentCallBackFunction, the finish step of RunFadeOut) re-enable
it. -/
theorem C9_mutex_gating :
    (∀ (raw : OLED_Key) (enc maxSlot : Int) (st : UIState),
      ¬ (st.KeyEnterFlag = MutexFlag.FLAGEND ∧ st.FadeOutFlag = MutexFlag.FLAGEND) →
      OLED_UI_InterruptHandler raw enc maxSlot st = sustainCountPhase st
      ∧ (OLED_UI_InterruptHandler raw enc maxSlot st).OLED_UI_Key = st.OLED_UI_Key
      ∧ (OLED_UI_InterruptHandler raw enc maxSlot st).OLED_UI_LastKey = st.OLED_UI_LastKey
      ∧ (OLED_UI_InterruptHandler raw enc maxSlot st).KeyEnterFlag = st.KeyEnterFlag
      ∧ (OLED_UI_InterruptHandler raw enc maxSlot st).FadeOutFlag = st.FadeOutFlag
      ∧ (OLED_UI_InterruptHandler raw enc maxSlot st).EncoderEnabled = st.EncoderEnabled
      ∧ (OLED_UI_InterruptHandler raw enc maxSlot st).CurrentMenuPage = st.CurrentMenuPage)
    ∧ (∀ st : UIState, (SetEnterFlag st).EncoderEnabled = false
        ∧ (SetEnterFlag st).KeyEnterFlag = MutexFlag.FLAGSTART)
    ∧ (∀ (a : MutexFlag) (st : UIState), (SetFadeOutFlag a st).EncoderEnabled = false
        ∧ (SetFadeOutFlag a st).FadeOutFlag = a)
    ∧ (∀ st : UIState, st.KeyEnterFlag = MutexFlag.FLAGSTART →
        (RunCurrentCallBackFunction st).EncoderEnabled = true
        ∧ (RunCurrentCallBackFunction st).KeyEnterFlag = MutexFlag.FLAGEND)
    ∧ (∀ st : UIState, st.FadeOutFlag ≠ MutexFlag.FLAGEND →
        (RunFadeOutFinishEffects st).EncoderEnabled = true
        ∧ (RunFadeOutFinishEffects st).FadeOutFlag = MutexFlag.FLAGEND) := by
  refine ⟨?_, ?_, ?_, ?_, ?_⟩
  · intro raw enc maxSlot st h
    have he := handler_guard_false raw enc maxSlot st h
    have hk := sustainCountPhase_keeps st
    rw [he]
    exact ⟨rfl, hk.1, hk.2.1, hk.2.2.1, hk.2.2.2.1, hk.2.2.2.2.1, hk.2.2.2.2.2.2⟩
  · intro st; exact ⟨rfl, rfl⟩
  · intro a st; exact ⟨rfl, rfl⟩
  · intro st h
    simp only [RunCurrentCallBackFunction]
    rw [if_pos h]
    exact ⟨rfl, rfl⟩
  · intro st h
    simp only [RunFadeOutFinishEffects]
    rw [if_pos h]
    exact ⟨rfl, rfl⟩

/-- Witness for C9_mutex_gating at the concrete mutex-raised state. -/
theorem C9_mutex_gating_witness :
    ¬ (stCallbackRunning.KeyEnterFlag = MutexFlag.FLAGEND
        ∧ stCallbackRunning.FadeOutFlag = MutexFlag.FLAGEND)
    ∧ (OLED_UI_InterruptHandler rawUpPressed 0 3 stCallbackRunning).OLED_UI_Key
        = stCallbackRunning.OLED_UI_Key
    ∧ (RunCurrentCallBackFunction stCallbackRunning).EncoderEnabled = true :=
  ⟨by decide,
   (C9_mutex_gating.1 rawUpPressed 0 3 stCallbackRunning (by decide)).2.1,
   (C9_mutex_gating.2.2.2.1 stCallbackRunning (by decide)).1⟩

theorem ToggleActiveRadio_radio (u : UIState) (b : Bool)
    (hr : (currentItem u.CurrentMenuPage).List_BoolRadioBox = some b) :
    (currentItem (ToggleActiveRadio u).CurrentMenuPage).List_BoolRadioBox
      = some (!b) := by
  have hlt : u.CurrentMenuPage.ActiveMenuID.toNat
      < u.CurrentMenuPage.General_MenuItems.length := by
    by_contra hge
    have hs : currentItem u.CurrentMenuPage = sentinelItem := by
      unfold currentItem
      exact List.getD_eq_default _ _ (le_of_not_lt hge)
    rw [hs] at hr
    simp [sentinelItem] at hr
  unfold ToggleActiveRadio
  dsimp only
  rw [hr]
  unfold currentItem
  dsimp only
  rw [List.getD_eq_getElem _ _ (by simpa using hlt)]
  rw [List.getElem_set_self]

/-- C10: on an Enter release edge with no window visible the handler runs
EnterEventMenuItem and then toggles the active item radio boolean exactly
when its pointer is non-null, regardless of the callback or sub-page fields;
EnterEventMenuItem independently raises the callback mutex (callback and no
sub-page), the enter fade (sub-page and no callback), or nothing (both or
neither). -/
theorem C10_radio_toggle :
    (∀ st : UIState,
      (st.OLED_UI_Key.Enter ≠ st.OLED_UI_LastKey.Enter ∧ st.OLED_UI_Key.Enter = true) →
      st.SustainFlag = false →
      enterDispatch st = ToggleActiveRadio (EnterEventMenuItem st))
    ∧ (∀ (st : UIState) (b : Bool),
      (currentItem st.CurrentMenuPage).List_BoolRadioBox = some b →
      (currentItem (ToggleActiveRadio (EnterEventMenuItem st)).CurrentMenuPage).List_BoolRadioBox
        = some (!b))
    ∧ (∀ st : UIState,
      (currentItem st.CurrentMenuPage).List_BoolRadioBox = none →
      ToggleActiveRadio (EnterEventMenuItem st) = EnterEventMenuItem st)
    ∧ (∀ st : UIState,
      (currentItem st.CurrentMenuPage).General_callback = true ∧
        (currentItem st.CurrentMenuPage).General_SubMenuPage = false →
      (EnterEventMenuItem st).KeyEnterFlag = MutexFlag.FLAGSTART
      ∧ (EnterEventMenuItem st).FadeOutFlag = st.FadeOutFlag
      ∧ (EnterEventMenuItem st).EncoderEnabled = false)
    ∧ (∀ st : UIState,
      (currentItem st.CurrentMenuPage).General_SubMenuPage = true ∧
        (currentItem st.CurrentMenuPage).General_callback = false →
      (EnterEventMenuItem st).FadeOutFlag = MutexFlag.ENTER_FLAGSTART
      ∧ (EnterEventMenuItem st).KeyEnterFlag = st.KeyEnterFlag
      ∧ (EnterEventMenuItem st).EncoderEnabled = false)
    ∧ (∀ st : UIState,
      (currentItem st.CurrentMenuPage).General_callback
          = (currentItem st.CurrentMenuPage).General_SubMenuPage →
      EnterEventMenuItem st = st) := by
  refine ⟨?_, ?_, ?_, ?_, ?_, ?_⟩
  · intro st hedge hsus
    simp only [enterDispatch]
    rw [if_pos hedge, if_pos hsus]
  · intro st b hr
    have hpage := (EnterEventMenuItem_keeps st).2.2.2.2.2
    exact ToggleActiveRadio_radio (EnterEventMenuItem st) b (by rw [hpage]; exact hr)
  · intro st hr
    have hpage := (EnterEventMenuItem_keeps st).2.2.2.2.2
    simp [ToggleActiveRadio, hpage, hr]
  · intro st h
    have h2 : ¬ ((currentItem st.CurrentMenuPage).General_SubMenuPage = true ∧
        (currentItem st.CurrentMenuPage).General_callback = false) := by
      simp [h.2]
    simp [EnterEventMenuItem, h, h2, SetEnterFlag, SetFadeOutFlag, Encoder_Disable]
  · intro st h
    have h2 : ¬ ((currentItem st.CurrentMenuPage).General_callback = true ∧
        (currentItem st.CurrentMenuPage).General_SubMenuPage = false) := by
      simp [h.2]
    simp [EnterEventMenuItem, h, h2, SetEnterFlag, SetFadeOutFlag, Encoder_Disable]
  · intro st h
    by_cases hcb : (currentItem st.CurrentMenuPage).General_callback = true
    · have hsub : (currentItem st.CurrentMenuPage).General_SubMenuPage = true := by
        rw [← h]; exact hcb
      simp [EnterEventMenuItem, hcb, hsub]
    · have hsub : ¬ (currentItem st.CurrentMenuPage).General_SubMenuPage = true := by
        rw [← h]; exact hcb
      simp [EnterEventMenuItem, hcb, hsub]

/-- Witness for C10_radio_toggle at a concrete radio item carrying a
callback: the toggle happens and the callback mutex is raised. -/
theorem C10_radio_toggle_witness :
    (stRadioEnterEdge.OLED_UI_Key.Enter ≠ stRadioEnterEdge.OLED_UI_LastKey.Enter
      ∧ stRadioEnterEdge.OLED_UI_Key.Enter = true)
    ∧ enterDispatch stRadioEnterEdge = ToggleActiveRadio (EnterEventMenuItem stRadioEnterEdge)
    ∧ (currentItem (ToggleActiveRadio (EnterEventMenuItem stRadioEnterEdge)).CurrentMenuPage).List_BoolRadioBox
        = some (!false)
    ∧ (EnterEventMenuItem stRadioEnterEdge).KeyEnterFlag = MutexFlag.FLAGSTART :=
  ⟨by decide,
   C10_radio_toggle.1 stRadioEnterEdge (by decide) rfl,
   C10_radio_toggle.2.1 stRadioEnterEdge false rfl,
   (C10_radio_toggle.2.2.2.1 stRadioEnterEdge ⟨rfl, rfl⟩).1⟩

/-- Witness for C6_active_index: the invariant at a concrete state with an
encoder delta, and both wrap directions on the one-item demo page. -/
theorem C6_active_index_witness :
    1 ≤ (GetMenuItemNum stMenuDownHeld.CurrentMenuPage.General_MenuItems : Int)
    ∧ (0 ≤ (OLED_UI_InterruptHandler rawUpPressed 5 3 stCallbackRunning).CurrentMenuPage.ActiveMenuID
       ∧ (OLED_UI_InterruptHandler rawUpPressed 5 3 stCallbackRunning).CurrentMenuPage.ActiveMenuID
         ≤ (GetMenuItemNum stCallbackRunning.CurrentMenuPage.General_MenuItems : Int) - 1)
    ∧ (OLED_UI_InterruptHandler rawAllReleased 0 3 stMenuDownHeld).CurrentMenuPage.ActiveMenuID = 0
    ∧ (OLED_UI_InterruptHandler rawAllReleased 0 3 stMenuUpHeld).CurrentMenuPage.ActiveMenuID
        = (GetMenuItemNum stMenuUpHeld.CurrentMenuPage.General_MenuItems : Int) - 1 :=
  ⟨by decide,
   C6_active_index.1 rawUpPressed 5 3 stCallbackRunning
     (by decide) (by decide) (by decide) (by decide),
   C6_active_index.2.1 rawAllReleased 3 stMenuDownHeld
     rfl rfl rfl rfl rfl rfl (by decide) (by decide) (by decide),
   C6_active_index.2.2 rawAllReleased 3 stMenuUpHeld
     rfl rfl rfl rfl rfl rfl (by decide) (by decide) (by decide)⟩
